import Mathlib

/-!
Verification of the physics-simulation repository's simulation engines.

Each engine's per-step physics update is embedded as a pure Lean function
over exact rationals (the Python source computes with floats; the claims
under scrutiny are stated "within floating tolerance", so the exact-rational
rendering of the same arithmetic is the object of proof).  Field and
function names follow the source files.
-/

namespace ElasticCollision

/-- Parameters of `ElasticCollision` (src/elastic_collision.py,
`setup_parameters`): masses, wall positions, block width, time step,
unused simulation horizon `t_max`, frame skip and the block-block
collision cooldown set in `reset_simulation`. -/
structure Params where
  m1 : ℚ
  m2 : ℚ
  wall_left : ℚ
  wall_right : ℚ
  block_width : ℚ
  dt : ℚ
  t_max : ℚ
  frame_skip : ℕ
  collision_cooldown : ℚ
  deriving DecidableEq

/-- Mutable state of the simulation: positions, current velocities,
elapsed time and the time of the last block-block collision. -/
structure State where
  x1 : ℚ
  x2 : ℚ
  current_v1 : ℚ
  current_v2 : ℚ
  t : ℚ
  last_collision_time : ℚ
  deriving DecidableEq

/-- The numeric defaults assigned in `setup_parameters`
(`m1=1, m2=2, wall_left=-5, wall_right=5, block_width=0.5, dt=0.01,
t_max=20, frame_skip=2`) together with `collision_cooldown=0.1`
from `reset_simulation`. -/
def defaultParams : Params :=
  { m1 := 1, m2 := 2, wall_left := -5, wall_right := 5, block_width := 1/2,
    dt := 1/100, t_max := 20, frame_skip := 2, collision_cooldown := 1/10 }

/-- `reset_simulation`: positions go to `x1_init = -2`, `x2_init = 2`,
velocities to the slider values, `t = 0`, `last_collision_time = -1`. -/
def reset_simulation (v1 v2 : ℚ) : State :=
  { x1 := -2, x2 := 2, current_v1 := v1, current_v2 := v2, t := 0,
    last_collision_time := -1 }

/-- The wall-reflection block of `update_positions` (lines 64-78), applied
to one block: clamp to the wall and negate the velocity when the block's
edge crosses `wall_left` / `wall_right`. -/
def wallAdjust (wall_left wall_right block_width x v : ℚ) : ℚ × ℚ :=
  if x - block_width / 2 ≤ wall_left then (wall_left + block_width / 2, -v)
  else if x + block_width / 2 ≥ wall_right then (wall_right - block_width / 2, -v)
  else (x, v)

/-- One physics micro-step, `ElasticCollision.update_positions`
(src/elastic_collision.py lines 54-112): advance both positions and the
clock, reflect each block off the walls, then detect and resolve a
block-block collision (distance, cooldown and approach-direction gates;
overlap separation; closed-form elastic velocity update). -/
def update_positions (p : Params) (s : State) : State :=
  let x1 := s.x1 + s.current_v1 * p.dt
  let x2 := s.x2 + s.current_v2 * p.dt
  let t := s.t + p.dt
  let w1 := wallAdjust p.wall_left p.wall_right p.block_width x1 s.current_v1
  let w2 := wallAdjust p.wall_left p.wall_right p.block_width x2 s.current_v2
  let distance := |w1.1 - w2.1|
  if distance ≤ p.block_width ∧ t - s.last_collision_time > p.collision_cooldown then
    let relative_velocity := w1.2 - w2.2
    if (w1.1 < w2.1 ∧ relative_velocity > 0) ∨ (w1.1 > w2.1 ∧ relative_velocity < 0) then
      let overlap := p.block_width - distance
      let x1n := if w1.1 < w2.1 then w1.1 - overlap / 2 else w1.1 + overlap / 2
      let x2n := if w1.1 < w2.1 then w2.1 + overlap / 2 else w2.1 - overlap / 2
      let v1_new := ((p.m1 - p.m2) * w1.2 + 2 * p.m2 * w2.2) / (p.m1 + p.m2)
      let v2_new := ((p.m2 - p.m1) * w2.2 + 2 * p.m1 * w1.2) / (p.m1 + p.m2)
      { x1 := x1n, x2 := x2n, current_v1 := v1_new, current_v2 := v2_new,
        t := t, last_collision_time := t }
    else
      { x1 := w1.1, x2 := w2.1, current_v1 := w1.2, current_v2 := w2.2,
        t := t, last_collision_time := s.last_collision_time }
  else
    { x1 := w1.1, x2 := w2.1, current_v1 := w1.2, current_v2 := w2.2,
      t := t, last_collision_time := s.last_collision_time }

/-- `update_animation` (lines 227-232): when not paused, run
`update_positions` `frame_skip` times; no time cutoff is applied. -/
def update_animation (p : Params) (is_paused : Bool) (s : State) : State :=
  if is_paused then s else (fun s => update_positions p s)^[p.frame_skip] s

/-- Wall containment of both blocks, the invariant of claim C6. -/
def inWalls (p : Params) (s : State) : Prop :=
  p.wall_left ≤ s.x1 - p.block_width / 2 ∧ s.x1 + p.block_width / 2 ≤ p.wall_right ∧
  p.wall_left ≤ s.x2 - p.block_width / 2 ∧ s.x2 + p.block_width / 2 ≤ p.wall_right

instance (p : Params) (s : State) : Decidable (inWalls p s) := by
  unfold inWalls; infer_instance

/-- Helper: the wall-reflection phase alone restores full containment of
a block (its whole width between the walls), given a sane geometry. -/
lemma wallAdjust_contained (L R w x v : ℚ) (_hw : 0 ≤ w) (hLR : L + w ≤ R) :
    L ≤ (wallAdjust L R w x v).1 - w / 2 ∧ (wallAdjust L R w x v).1 + w / 2 ≤ R := by
  unfold wallAdjust
  split_ifs <;> dsimp only <;> constructor <;> linarith

/-- Helper: a block whose width is contained can be shifted by half of
any amount `d` with `0 ≤ d ≤ w` in either direction and its center stays
between the walls. -/
lemma center_bound_shift (L R w c d : ℚ)
    (hc1 : L ≤ c - w / 2) (hc2 : c + w / 2 ≤ R) (hd : 0 ≤ d) (hdw : d ≤ w) :
    (L ≤ c - d / 2 ∧ c - d / 2 ≤ R) ∧ (L ≤ c + d / 2 ∧ c + d / 2 ≤ R) :=
  ⟨⟨by linarith, by linarith⟩, ⟨by linarith, by linarith⟩⟩

/-- A state of the default engine in which the two blocks collide away from
the walls on the next micro-step (used to instantiate the collision
theorems at the spec's scenario `m1=1, v1=2, m2=2, v2=-1`). -/
def collisionState : State :=
  { x1 := 0, x2 := 2/5, current_v1 := 2, current_v2 := -1, t := 0,
    last_collision_time := -1 }

/-- Helper: under the conditions that select the block-block-collision
branch (no wall contact this micro-step, distance within `block_width`,
cooldown elapsed, blocks approaching), `update_positions` sets the
velocities to the closed-form 1D elastic-collision expressions evaluated
at the pre-step velocities. -/
lemma collision_branch_velocities (p : Params) (s : State)
    (h1l : p.wall_left < s.x1 + s.current_v1 * p.dt - p.block_width / 2)
    (h1r : s.x1 + s.current_v1 * p.dt + p.block_width / 2 < p.wall_right)
    (h2l : p.wall_left < s.x2 + s.current_v2 * p.dt - p.block_width / 2)
    (h2r : s.x2 + s.current_v2 * p.dt + p.block_width / 2 < p.wall_right)
    (hdist : |s.x1 + s.current_v1 * p.dt - (s.x2 + s.current_v2 * p.dt)| ≤ p.block_width)
    (hcool : s.t + p.dt - s.last_collision_time > p.collision_cooldown)
    (happroach :
      (s.x1 + s.current_v1 * p.dt < s.x2 + s.current_v2 * p.dt ∧
          s.current_v1 - s.current_v2 > 0) ∨
        (s.x1 + s.current_v1 * p.dt > s.x2 + s.current_v2 * p.dt ∧
          s.current_v1 - s.current_v2 < 0)) :
    (update_positions p s).current_v1
        = ((p.m1 - p.m2) * s.current_v1 + 2 * p.m2 * s.current_v2) / (p.m1 + p.m2) ∧
      (update_positions p s).current_v2
        = ((p.m2 - p.m1) * s.current_v2 + 2 * p.m1 * s.current_v1) / (p.m1 + p.m2) := by
  have e1 : wallAdjust p.wall_left p.wall_right p.block_width
      (s.x1 + s.current_v1 * p.dt) s.current_v1
      = (s.x1 + s.current_v1 * p.dt, s.current_v1) := by
    unfold wallAdjust
    rw [if_neg (not_le.mpr (by linarith)), if_neg (not_le.mpr (by linarith))]
  have e2 : wallAdjust p.wall_left p.wall_right p.block_width
      (s.x2 + s.current_v2 * p.dt) s.current_v2
      = (s.x2 + s.current_v2 * p.dt, s.current_v2) := by
    unfold wallAdjust
    rw [if_neg (not_le.mpr (by linarith)), if_neg (not_le.mpr (by linarith))]
  unfold update_positions
  dsimp only
  rw [e1, e2]
  dsimp only
  rw [if_pos ⟨hdist, hcool⟩, if_pos happroach]
  exact ⟨rfl, rfl⟩

/-- C5: when the engine resolves a block-block collision (collision branch
of `update_positions` taken, no wall contact in the same micro-step), the
post-collision velocities are exactly the closed-form 1D elastic-collision
expressions `v1' = ((m1-m2)v1 + 2 m2 v2)/(m1+m2)` and
`v2' = ((m2-m1)v2 + 2 m1 v1)/(m1+m2)` computed from the pre-collision
velocities. -/
theorem update_positions_resolves_elastic (p : Params) (s : State)
    (h1l : p.wall_left < s.x1 + s.current_v1 * p.dt - p.block_width / 2)
    (h1r : s.x1 + s.current_v1 * p.dt + p.block_width / 2 < p.wall_right)
    (h2l : p.wall_left < s.x2 + s.current_v2 * p.dt - p.block_width / 2)
    (h2r : s.x2 + s.current_v2 * p.dt + p.block_width / 2 < p.wall_right)
    (hdist : |s.x1 + s.current_v1 * p.dt - (s.x2 + s.current_v2 * p.dt)| ≤ p.block_width)
    (hcool : s.t + p.dt - s.last_collision_time > p.collision_cooldown)
    (happroach :
      (s.x1 + s.current_v1 * p.dt < s.x2 + s.current_v2 * p.dt ∧
          s.current_v1 - s.current_v2 > 0) ∨
        (s.x1 + s.current_v1 * p.dt > s.x2 + s.current_v2 * p.dt ∧
          s.current_v1 - s.current_v2 < 0)) :
    (update_positions p s).current_v1
        = ((p.m1 - p.m2) * s.current_v1 + 2 * p.m2 * s.current_v2) / (p.m1 + p.m2) ∧
      (update_positions p s).current_v2
        = ((p.m2 - p.m1) * s.current_v2 + 2 * p.m1 * s.current_v1) / (p.m1 + p.m2) :=
  collision_branch_velocities p s h1l h1r h2l h2r hdist hcool happroach

/-- Witness for C5: the default parameters with blocks at `x1 = 0`,
`x2 = 0.4` moving at `v1 = 2`, `v2 = -1` collide on the next micro-step,
away from the walls. -/
theorem update_positions_resolves_elastic_witness :
    (update_positions defaultParams collisionState).current_v1
        = ((defaultParams.m1 - defaultParams.m2) * collisionState.current_v1
            + 2 * defaultParams.m2 * collisionState.current_v2)
          / (defaultParams.m1 + defaultParams.m2) ∧
      (update_positions defaultParams collisionState).current_v2
        = ((defaultParams.m2 - defaultParams.m1) * collisionState.current_v2
            + 2 * defaultParams.m1 * collisionState.current_v1)
          / (defaultParams.m1 + defaultParams.m2) :=
  update_positions_resolves_elastic defaultParams collisionState
    (by norm_num [defaultParams, collisionState]) (by norm_num [defaultParams, collisionState])
    (by norm_num [defaultParams, collisionState]) (by norm_num [defaultParams, collisionState])
    (by norm_num [defaultParams, collisionState, abs_of_nonpos])
    (by norm_num [defaultParams, collisionState])
    (Or.inl ⟨by norm_num [defaultParams, collisionState],
      by norm_num [collisionState]⟩)

/-- Counterexample to C1: at the spec's scenario `m1=1, v1=2, m2=2, v2=-1`
the engine does NOT produce `v1' = -2/3, v2' = 2/3`. -/
theorem collision_scenario_not_spec_values :
    ¬ ((update_positions defaultParams collisionState).current_v1 = -2/3 ∧
       (update_positions defaultParams collisionState).current_v2 = 2/3) := by
  norm_num [update_positions, wallAdjust, defaultParams, collisionState, abs_of_nonpos]

/-- C1 (amended): for the head-on scenario `m1=1, v1=2, m2=2, v2=-1`
resolved away from the walls, the engine's exact-rational velocity update
yields `v1' = -2` and `v2' = 1` (which conserve momentum `0` and kinetic
energy `3`, unlike the spec's stated `-2/3, 2/3`). -/
theorem collision_scenario_velocities :
    (update_positions defaultParams collisionState).current_v1 = -2 ∧
      (update_positions defaultParams collisionState).current_v2 = 1 := by
  norm_num [update_positions, wallAdjust, defaultParams, collisionState, abs_of_nonpos]

/-- C4: across the velocity-resolution step of an isolated two-block
collision (no walls involved), momentum is conserved exactly:
`m1 v1' + m2 v2' = m1 v1 + m2 v2`. -/
theorem update_positions_conserves_momentum (p : Params) (s : State)
    (hm1 : 0 < p.m1) (hm2 : 0 < p.m2)
    (h1l : p.wall_left < s.x1 + s.current_v1 * p.dt - p.block_width / 2)
    (h1r : s.x1 + s.current_v1 * p.dt + p.block_width / 2 < p.wall_right)
    (h2l : p.wall_left < s.x2 + s.current_v2 * p.dt - p.block_width / 2)
    (h2r : s.x2 + s.current_v2 * p.dt + p.block_width / 2 < p.wall_right)
    (hdist : |s.x1 + s.current_v1 * p.dt - (s.x2 + s.current_v2 * p.dt)| ≤ p.block_width)
    (hcool : s.t + p.dt - s.last_collision_time > p.collision_cooldown)
    (happroach :
      (s.x1 + s.current_v1 * p.dt < s.x2 + s.current_v2 * p.dt ∧
          s.current_v1 - s.current_v2 > 0) ∨
        (s.x1 + s.current_v1 * p.dt > s.x2 + s.current_v2 * p.dt ∧
          s.current_v1 - s.current_v2 < 0)) :
    p.m1 * (update_positions p s).current_v1 + p.m2 * (update_positions p s).current_v2
      = p.m1 * s.current_v1 + p.m2 * s.current_v2 := by
  obtain ⟨e1, e2⟩ :=
    collision_branch_velocities p s h1l h1r h2l h2r hdist hcool happroach
  rw [e1, e2]
  have hm : p.m1 + p.m2 ≠ 0 := by positivity
  field_simp
  ring

/-- Witness for C4 at the spec scenario: total momentum `1·2 + 2·(-1) = 0`
is unchanged by the collision. -/
theorem update_positions_conserves_momentum_witness :
    defaultParams.m1 * (update_positions defaultParams collisionState).current_v1
        + defaultParams.m2 * (update_positions defaultParams collisionState).current_v2
      = defaultParams.m1 * collisionState.current_v1
        + defaultParams.m2 * collisionState.current_v2 :=
  update_positions_conserves_momentum defaultParams collisionState
    (by norm_num [defaultParams]) (by norm_num [defaultParams])
    (by norm_num [defaultParams, collisionState]) (by norm_num [defaultParams, collisionState])
    (by norm_num [defaultParams, collisionState]) (by norm_num [defaultParams, collisionState])
    (by norm_num [defaultParams, collisionState, abs_of_nonpos])
    (by norm_num [defaultParams, collisionState])
    (Or.inl ⟨by norm_num [defaultParams, collisionState],
      by norm_num [collisionState]⟩)

/-- C6 (amended): the wall-reflection phase of each micro-step restores
full containment (`wall_left ≤ x - width/2` and `x + width/2 ≤ wall_right`)
for each block, and after a whole micro-step each block's CENTER always
remains between the walls; full containment after the micro-step can
however be broken (by at most `width/2`) by the block-block
overlap-separation push. -/
theorem update_positions_wall_bounds (p : Params)
    (hw : 0 ≤ p.block_width) (hLR : p.wall_left + p.block_width ≤ p.wall_right) :
    (∀ x v : ℚ,
        p.wall_left
            ≤ (wallAdjust p.wall_left p.wall_right p.block_width x v).1
                - p.block_width / 2 ∧
          (wallAdjust p.wall_left p.wall_right p.block_width x v).1
              + p.block_width / 2 ≤ p.wall_right) ∧
    (∀ s : State,
        (p.wall_left ≤ (update_positions p s).x1 ∧
            (update_positions p s).x1 ≤ p.wall_right) ∧
          (p.wall_left ≤ (update_positions p s).x2 ∧
            (update_positions p s).x2 ≤ p.wall_right)) := by
  refine ⟨fun x v => wallAdjust_contained _ _ _ x v hw hLR, fun s => ?_⟩
  obtain ⟨a1, a2⟩ := wallAdjust_contained p.wall_left p.wall_right p.block_width
    (s.x1 + s.current_v1 * p.dt) s.current_v1 hw hLR
  obtain ⟨b1, b2⟩ := wallAdjust_contained p.wall_left p.wall_right p.block_width
    (s.x2 + s.current_v2 * p.dt) s.current_v2 hw hLR
  unfold update_positions
  dsimp only
  set W1 := wallAdjust p.wall_left p.wall_right p.block_width
    (s.x1 + s.current_v1 * p.dt) s.current_v1 with hW1
  set W2 := wallAdjust p.wall_left p.wall_right p.block_width
    (s.x2 + s.current_v2 * p.dt) s.current_v2 with hW2
  have habs : (0:ℚ) ≤ |W1.1 - W2.1| := abs_nonneg _
  split_ifs with hgate happ hlt
  · have hov0 : 0 ≤ p.block_width - |W1.1 - W2.1| := by linarith [hgate.1]
    have hovw : p.block_width - |W1.1 - W2.1| ≤ p.block_width := by linarith
    obtain ⟨c1, _⟩ := center_bound_shift p.wall_left p.wall_right p.block_width
      W1.1 (p.block_width - |W1.1 - W2.1|) a1 a2 hov0 hovw
    obtain ⟨_, c2⟩ := center_bound_shift p.wall_left p.wall_right p.block_width
      W2.1 (p.block_width - |W1.1 - W2.1|) b1 b2 hov0 hovw
    exact ⟨c1, c2⟩
  · have hov0 : 0 ≤ p.block_width - |W1.1 - W2.1| := by linarith [hgate.1]
    have hovw : p.block_width - |W1.1 - W2.1| ≤ p.block_width := by linarith
    obtain ⟨_, c1⟩ := center_bound_shift p.wall_left p.wall_right p.block_width
      W1.1 (p.block_width - |W1.1 - W2.1|) a1 a2 hov0 hovw
    obtain ⟨c2, _⟩ := center_bound_shift p.wall_left p.wall_right p.block_width
      W2.1 (p.block_width - |W1.1 - W2.1|) b1 b2 hov0 hovw
    exact ⟨c1, c2⟩
  · exact ⟨⟨by linarith, by linarith⟩, ⟨by linarith, by linarith⟩⟩
  · exact ⟨⟨by linarith, by linarith⟩, ⟨by linarith, by linarith⟩⟩

/-- Witness for the amended C6 at the default parameters. -/
theorem update_positions_wall_bounds_witness :
    (∀ x v : ℚ,
        defaultParams.wall_left
            ≤ (wallAdjust defaultParams.wall_left defaultParams.wall_right
                  defaultParams.block_width x v).1
                - defaultParams.block_width / 2 ∧
          (wallAdjust defaultParams.wall_left defaultParams.wall_right
                defaultParams.block_width x v).1
              + defaultParams.block_width / 2 ≤ defaultParams.wall_right) ∧
    (∀ s : State,
        (defaultParams.wall_left ≤ (update_positions defaultParams s).x1 ∧
            (update_positions defaultParams s).x1 ≤ defaultParams.wall_right) ∧
          (defaultParams.wall_left ≤ (update_positions defaultParams s).x2 ∧
            (update_positions defaultParams s).x2 ≤ defaultParams.wall_right)) :=
  update_positions_wall_bounds defaultParams
    (by norm_num [defaultParams]) (by norm_num [defaultParams])

/-- Helper for evaluating iterated micro-steps one step at a time. -/
lemma iterate_chain (f : State → State) (m : ℕ) {a b c : State}
    (h1 : f^[m] a = b) (h2 : f b = c) : f^[m+1] a = c := by
  rw [Function.iterate_succ_apply', h1, h2]

/-- Slider-reachable parameters with equal unit masses
(`m1 = m2 = 1` within the mass sliders' range 0.1-5.0); the other fields
are the engine's fixed defaults. -/
def equalMassParams : Params :=
  { m1 := 1, m2 := 1, wall_left := -5, wall_right := 5, block_width := 1/2,
    dt := 1/100, t_max := 20, frame_skip := 2, collision_cooldown := 1/10 }

set_option maxHeartbeats 2000000 in
/-- Counterexample to C6: with slider-reachable parameters
(`m1 = m2 = 1`, initial velocities `v1 = -2.15`, `v2 = -4.9`, both within
the velocity sliders' range -5.0..5.0), the state reached after 128
micro-steps from the engine's reset state violates wall containment:
block 1 ends at `x1 = -4.761`, so `x1 - width/2 = -5.011 < wall_left`.
On that 128th micro-step block 1 bounces off the left wall (clamped to
`-4.75`) and in the same micro-step the block-block overlap separation
pushes it back outside the wall. -/
theorem wall_containment_reachable_violation :
    inWalls equalMassParams (reset_simulation (-43/20) (-49/10)) ∧
    ¬ inWalls equalMassParams
        ((update_positions equalMassParams)^[128]
          (reset_simulation (-43/20) (-49/10))) := by
  constructor
  · norm_num [inWalls, equalMassParams, reset_simulation]
  · have e0 : (update_positions equalMassParams)^[0]
        (reset_simulation (-43/20) (-49/10))
        = (⟨(-2), 2, (-43/20), (-49/10), 0, (-1)⟩ : State) := rfl
    have e1 : (update_positions equalMassParams)^[1] (reset_simulation (-43/20) (-49/10))
        = (⟨(-4043/2000), 1951/1000, (-43/20), (-49/10), 1/100, (-1)⟩ : State) :=
      iterate_chain (update_positions equalMassParams) 0 e0
        (by norm_num [update_positions, wallAdjust, equalMassParams,
          abs_of_nonpos, abs_of_nonneg])
    have e2 : (update_positions equalMassParams)^[2] (reset_simulation (-43/20) (-49/10))
        = (⟨(-2043/1000), 951/500, (-43/20), (-49/10), 1/50, (-1)⟩ : State) :=
      iterate_chain (update_positions equalMassParams) 1 e1
        (by norm_num [update_positions, wallAdjust, equalMassParams,
          abs_of_nonpos, abs_of_nonneg])
    have e3 : (update_positions equalMassParams)^[3] (reset_simulation (-43/20) (-49/10))
        = (⟨(-4129/2000), 1853/1000, (-43/20), (-49/10), 3/100, (-1)⟩ : State) :=
      iterate_chain (update_positions equalMassParams) 2 e2
        (by norm_num [update_positions, wallAdjust, equalMassParams,
          abs_of_nonpos, abs_of_nonneg])
    have e4 : (update_positions equalMassParams)^[4] (reset_simulation (-43/20) (-49/10))
        = (⟨(-1043/500), 451/250, (-43/20), (-49/10), 1/25, (-1)⟩ : State) :=
      iterate_chain (update_positions equalMassParams) 3 e3
        (by norm_num [update_positions, wallAdjust, equalMassParams,
          abs_of_nonpos, abs_of_nonneg])
    have e5 : (update_positions equalMassParams)^[5] (reset_simulation (-43/20) (-49/10))
        = (⟨(-843/400), 351/200, (-43/20), (-49/10), 1/20, (-1)⟩ : State) :=
      iterate_chain (update_positions equalMassParams) 4 e4
        (by norm_num [update_positions, wallAdjust, equalMassParams,
          abs_of_nonpos, abs_of_nonneg])
    have e6 : (update_positions equalMassParams)^[6] (reset_simulation (-43/20) (-49/10))
        = (⟨(-2129/1000), 853/500, (-43/20), (-49/10), 3/50, (-1)⟩ : State) :=
      iterate_chain (update_positions equalMassParams) 5 e5
        (by norm_num [update_positions, wallAdjust, equalMassParams,
          abs_of_nonpos, abs_of_nonneg])
    have e7 : (update_positions equalMassParams)^[7] (reset_simulation (-43/20) (-49/10))
        = (⟨(-4301/2000), 1657/1000, (-43/20), (-49/10), 7/100, (-1)⟩ : State) :=
      iterate_chain (update_positions equalMassParams) 6 e6
        (by norm_num [update_positions, wallAdjust, equalMassParams,
          abs_of_nonpos, abs_of_nonneg])
    have e8 : (update_positions equalMassParams)^[8] (reset_simulation (-43/20) (-49/10))
        = (⟨(-543/250), 201/125, (-43/20), (-49/10), 2/25, (-1)⟩ : State) :=
      iterate_chain (update_positions equalMassParams) 7 e7
        (by norm_num [update_positions, wallAdjust, equalMassParams,
          abs_of_nonpos, abs_of_nonneg])
    have e9 : (update_positions equalMassParams)^[9] (reset_simulation (-43/20) (-49/10))
        = (⟨(-4387/2000), 1559/1000, (-43/20), (-49/10), 9/100, (-1)⟩ : State) :=
      iterate_chain (update_positions equalMassParams) 8 e8
        (by norm_num [update_positions, wallAdjust, equalMassParams,
          abs_of_nonpos, abs_of_nonneg])
    have e10 : (update_positions equalMassParams)^[10] (reset_simulation (-43/20) (-49/10))
        = (⟨(-443/200), 151/100, (-43/20), (-49/10), 1/10, (-1)⟩ : State) :=
      iterate_chain (update_positions equalMassParams) 9 e9
        (by norm_num [update_positions, wallAdjust, equalMassParams,
          abs_of_nonpos, abs_of_nonneg])
    have e11 : (update_positions equalMassParams)^[11] (reset_simulation (-43/20) (-49/10))
        = (⟨(-4473/2000), 1461/1000, (-43/20), (-49/10), 11/100, (-1)⟩ : State) :=
      iterate_chain (update_positions equalMassParams) 10 e10
        (by norm_num [update_positions, wallAdjust, equalMassParams,
          abs_of_nonpos, abs_of_nonneg])
    have e12 : (update_positions equalMassParams)^[12] (reset_simulation (-43/20) (-49/10))
        = (⟨(-1129/500), 353/250, (-43/20), (-49/10), 3/25, (-1)⟩ : State) :=
      iterate_chain (update_positions equalMassParams) 11 e11
        (by norm_num [update_positions, wallAdjust, equalMassParams,
          abs_of_nonpos, abs_of_nonneg])
    have e13 : (update_positions equalMassParams)^[13] (reset_simulation (-43/20) (-49/10))
        = (⟨(-4559/2000), 1363/1000, (-43/20), (-49/10), 13/100, (-1)⟩ : State) :=
      iterate_chain (update_positions equalMassParams) 12 e12
        (by norm_num [update_positions, wallAdjust, equalMassParams,
          abs_of_nonpos, abs_of_nonneg])
    have e14 : (update_positions equalMassParams)^[14] (reset_simulation (-43/20) (-49/10))
        = (⟨(-2301/1000), 657/500, (-43/20), (-49/10), 7/50, (-1)⟩ : State) :=
      iterate_chain (update_positions equalMassParams) 13 e13
        (by norm_num [update_positions, wallAdjust, equalMassParams,
          abs_of_nonpos, abs_of_nonneg])
    have e15 : (update_positions equalMassParams)^[15] (reset_simulation (-43/20) (-49/10))
        = (⟨(-929/400), 253/200, (-43/20), (-49/10), 3/20, (-1)⟩ : State) :=
      iterate_chain (update_positions equalMassParams) 14 e14
        (by norm_num [update_positions, wallAdjust, equalMassParams,
          abs_of_nonpos, abs_of_nonneg])
    have e16 : (update_positions equalMassParams)^[16] (reset_simulation (-43/20) (-49/10))
        = (⟨(-293/125), 152/125, (-43/20), (-49/10), 4/25, (-1)⟩ : State) :=
      iterate_chain (update_positions equalMassParams) 15 e15
        (by norm_num [update_positions, wallAdjust, equalMassParams,
          abs_of_nonpos, abs_of_nonneg])
    have e17 : (update_positions equalMassParams)^[17] (reset_simulation (-43/20) (-49/10))
        = (⟨(-4731/2000), 1167/1000, (-43/20), (-49/10), 17/100, (-1)⟩ : State) :=
      iterate_chain (update_positions equalMassParams) 16 e16
        (by norm_num [update_positions, wallAdjust, equalMassParams,
          abs_of_nonpos, abs_of_nonneg])
    have e18 : (update_positions equalMassParams)^[18] (reset_simulation (-43/20) (-49/10))
        = (⟨(-2387/1000), 559/500, (-43/20), (-49/10), 9/50, (-1)⟩ : State) :=
      iterate_chain (update_positions equalMassParams) 17 e17
        (by norm_num [update_positions, wallAdjust, equalMassParams,
          abs_of_nonpos, abs_of_nonneg])
    have e19 : (update_positions equalMassParams)^[19] (reset_simulation (-43/20) (-49/10))
        = (⟨(-4817/2000), 1069/1000, (-43/20), (-49/10), 19/100, (-1)⟩ : State) :=
      iterate_chain (update_positions equalMassParams) 18 e18
        (by norm_num [update_positions, wallAdjust, equalMassParams,
          abs_of_nonpos, abs_of_nonneg])
    have e20 : (update_positions equalMassParams)^[20] (reset_simulation (-43/20) (-49/10))
        = (⟨(-243/100), 51/50, (-43/20), (-49/10), 1/5, (-1)⟩ : State) :=
      iterate_chain (update_positions equalMassParams) 19 e19
        (by norm_num [update_positions, wallAdjust, equalMassParams,
          abs_of_nonpos, abs_of_nonneg])
    have e21 : (update_positions equalMassParams)^[21] (reset_simulation (-43/20) (-49/10))
        = (⟨(-4903/2000), 971/1000, (-43/20), (-49/10), 21/100, (-1)⟩ : State) :=
      iterate_chain (update_positions equalMassParams) 20 e20
        (by norm_num [update_positions, wallAdjust, equalMassParams,
          abs_of_nonpos, abs_of_nonneg])
    have e22 : (update_positions equalMassParams)^[22] (reset_simulation (-43/20) (-49/10))
        = (⟨(-2473/1000), 461/500, (-43/20), (-49/10), 11/50, (-1)⟩ : State) :=
      iterate_chain (update_positions equalMassParams) 21 e21
        (by norm_num [update_positions, wallAdjust, equalMassParams,
          abs_of_nonpos, abs_of_nonneg])
    have e23 : (update_positions equalMassParams)^[23] (reset_simulation (-43/20) (-49/10))
        = (⟨(-4989/2000), 873/1000, (-43/20), (-49/10), 23/100, (-1)⟩ : State) :=
      iterate_chain (update_positions equalMassParams) 22 e22
        (by norm_num [update_positions, wallAdjust, equalMassParams,
          abs_of_nonpos, abs_of_nonneg])
    have e24 : (update_positions equalMassParams)^[24] (reset_simulation (-43/20) (-49/10))
        = (⟨(-629/250), 103/125, (-43/20), (-49/10), 6/25, (-1)⟩ : State) :=
      iterate_chain (update_positions equalMassParams) 23 e23
        (by norm_num [update_positions, wallAdjust, equalMassParams,
          abs_of_nonpos, abs_of_nonneg])
    have e25 : (update_positions equalMassParams)^[25] (reset_simulation (-43/20) (-49/10))
        = (⟨(-203/80), 31/40, (-43/20), (-49/10), 1/4, (-1)⟩ : State) :=
      iterate_chain (update_positions equalMassParams) 24 e24
        (by norm_num [update_positions, wallAdjust, equalMassParams,
          abs_of_nonpos, abs_of_nonneg])
    have e26 : (update_positions equalMassParams)^[26] (reset_simulation (-43/20) (-49/10))
        = (⟨(-2559/1000), 363/500, (-43/20), (-49/10), 13/50, (-1)⟩ : State) :=
      iterate_chain (update_positions equalMassParams) 25 e25
        (by norm_num [update_positions, wallAdjust, equalMassParams,
          abs_of_nonpos, abs_of_nonneg])
    have e27 : (update_positions equalMassParams)^[27] (reset_simulation (-43/20) (-49/10))
        = (⟨(-5161/2000), 677/1000, (-43/20), (-49/10), 27/100, (-1)⟩ : State) :=
      iterate_chain (update_positions equalMassParams) 26 e26
        (by norm_num [update_positions, wallAdjust, equalMassParams,
          abs_of_nonpos, abs_of_nonneg])
    have e28 : (update_positions equalMassParams)^[28] (reset_simulation (-43/20) (-49/10))
        = (⟨(-1301/500), 157/250, (-43/20), (-49/10), 7/25, (-1)⟩ : State) :=
      iterate_chain (update_positions equalMassParams) 27 e27
        (by norm_num [update_positions, wallAdjust, equalMassParams,
          abs_of_nonpos, abs_of_nonneg])
    have e29 : (update_positions equalMassParams)^[29] (reset_simulation (-43/20) (-49/10))
        = (⟨(-5247/2000), 579/1000, (-43/20), (-49/10), 29/100, (-1)⟩ : State) :=
      iterate_chain (update_positions equalMassParams) 28 e28
        (by norm_num [update_positions, wallAdjust, equalMassParams,
          abs_of_nonpos, abs_of_nonneg])
    have e30 : (update_positions equalMassParams)^[30] (reset_simulation (-43/20) (-49/10))
        = (⟨(-529/200), 53/100, (-43/20), (-49/10), 3/10, (-1)⟩ : State) :=
      iterate_chain (update_positions equalMassParams) 29 e29
        (by norm_num [update_positions, wallAdjust, equalMassParams,
          abs_of_nonpos, abs_of_nonneg])
    have e31 : (update_positions equalMassParams)^[31] (reset_simulation (-43/20) (-49/10))
        = (⟨(-5333/2000), 481/1000, (-43/20), (-49/10), 31/100, (-1)⟩ : State) :=
      iterate_chain (update_positions equalMassParams) 30 e30
        (by norm_num [update_positions, wallAdjust, equalMassParams,
          abs_of_nonpos, abs_of_nonneg])
    have e32 : (update_positions equalMassParams)^[32] (reset_simulation (-43/20) (-49/10))
        = (⟨(-336/125), 54/125, (-43/20), (-49/10), 8/25, (-1)⟩ : State) :=
      iterate_chain (update_positions equalMassParams) 31 e31
        (by norm_num [update_positions, wallAdjust, equalMassParams,
          abs_of_nonpos, abs_of_nonneg])
    have e33 : (update_positions equalMassParams)^[33] (reset_simulation (-43/20) (-49/10))
        = (⟨(-5419/2000), 383/1000, (-43/20), (-49/10), 33/100, (-1)⟩ : State) :=
      iterate_chain (update_positions equalMassParams) 32 e32
        (by norm_num [update_positions, wallAdjust, equalMassParams,
          abs_of_nonpos, abs_of_nonneg])
    have e34 : (update_positions equalMassParams)^[34] (reset_simulation (-43/20) (-49/10))
        = (⟨(-2731/1000), 167/500, (-43/20), (-49/10), 17/50, (-1)⟩ : State) :=
      iterate_chain (update_positions equalMassParams) 33 e33
        (by norm_num [update_positions, wallAdjust, equalMassParams,
          abs_of_nonpos, abs_of_nonneg])
    have e35 : (update_positions equalMassParams)^[35] (reset_simulation (-43/20) (-49/10))
        = (⟨(-1101/400), 57/200, (-43/20), (-49/10), 7/20, (-1)⟩ : State) :=
      iterate_chain (update_positions equalMassParams) 34 e34
        (by norm_num [update_positions, wallAdjust, equalMassParams,
          abs_of_nonpos, abs_of_nonneg])
    have e36 : (update_positions equalMassParams)^[36] (reset_simulation (-43/20) (-49/10))
        = (⟨(-1387/500), 59/250, (-43/20), (-49/10), 9/25, (-1)⟩ : State) :=
      iterate_chain (update_positions equalMassParams) 35 e35
        (by norm_num [update_positions, wallAdjust, equalMassParams,
          abs_of_nonpos, abs_of_nonneg])
    have e37 : (update_positions equalMassParams)^[37] (reset_simulation (-43/20) (-49/10))
        = (⟨(-5591/2000), 187/1000, (-43/20), (-49/10), 37/100, (-1)⟩ : State) :=
      iterate_chain (update_positions equalMassParams) 36 e36
        (by norm_num [update_positions, wallAdjust, equalMassParams,
          abs_of_nonpos, abs_of_nonneg])
    have e38 : (update_positions equalMassParams)^[38] (reset_simulation (-43/20) (-49/10))
        = (⟨(-2817/1000), 69/500, (-43/20), (-49/10), 19/50, (-1)⟩ : State) :=
      iterate_chain (update_positions equalMassParams) 37 e37
        (by norm_num [update_positions, wallAdjust, equalMassParams,
          abs_of_nonpos, abs_of_nonneg])
    have e39 : (update_positions equalMassParams)^[39] (reset_simulation (-43/20) (-49/10))
        = (⟨(-5677/2000), 89/1000, (-43/20), (-49/10), 39/100, (-1)⟩ : State) :=
      iterate_chain (update_positions equalMassParams) 38 e38
        (by norm_num [update_positions, wallAdjust, equalMassParams,
          abs_of_nonpos, abs_of_nonneg])
    have e40 : (update_positions equalMassParams)^[40] (reset_simulation (-43/20) (-49/10))
        = (⟨(-143/50), 1/25, (-43/20), (-49/10), 2/5, (-1)⟩ : State) :=
      iterate_chain (update_positions equalMassParams) 39 e39
        (by norm_num [update_positions, wallAdjust, equalMassParams,
          abs_of_nonpos, abs_of_nonneg])
    have e41 : (update_positions equalMassParams)^[41] (reset_simulation (-43/20) (-49/10))
        = (⟨(-5763/2000), (-9/1000), (-43/20), (-49/10), 41/100, (-1)⟩ : State) :=
      iterate_chain (update_positions equalMassParams) 40 e40
        (by norm_num [update_positions, wallAdjust, equalMassParams,
          abs_of_nonpos, abs_of_nonneg])
    have e42 : (update_positions equalMassParams)^[42] (reset_simulation (-43/20) (-49/10))
        = (⟨(-2903/1000), (-29/500), (-43/20), (-49/10), 21/50, (-1)⟩ : State) :=
      iterate_chain (update_positions equalMassParams) 41 e41
        (by norm_num [update_positions, wallAdjust, equalMassParams,
          abs_of_nonpos, abs_of_nonneg])
    have e43 : (update_positions equalMassParams)^[43] (reset_simulation (-43/20) (-49/10))
        = (⟨(-5849/2000), (-107/1000), (-43/20), (-49/10), 43/100, (-1)⟩ : State) :=
      iterate_chain (update_positions equalMassParams) 42 e42
        (by norm_num [update_positions, wallAdjust, equalMassParams,
          abs_of_nonpos, abs_of_nonneg])
    have e44 : (update_positions equalMassParams)^[44] (reset_simulation (-43/20) (-49/10))
        = (⟨(-1473/500), (-39/250), (-43/20), (-49/10), 11/25, (-1)⟩ : State) :=
      iterate_chain (update_positions equalMassParams) 43 e43
        (by norm_num [update_positions, wallAdjust, equalMassParams,
          abs_of_nonpos, abs_of_nonneg])
    have e45 : (update_positions equalMassParams)^[45] (reset_simulation (-43/20) (-49/10))
        = (⟨(-1187/400), (-41/200), (-43/20), (-49/10), 9/20, (-1)⟩ : State) :=
      iterate_chain (update_positions equalMassParams) 44 e44
        (by norm_num [update_positions, wallAdjust, equalMassParams,
          abs_of_nonpos, abs_of_nonneg])
    have e46 : (update_positions equalMassParams)^[46] (reset_simulation (-43/20) (-49/10))
        = (⟨(-2989/1000), (-127/500), (-43/20), (-49/10), 23/50, (-1)⟩ : State) :=
      iterate_chain (update_positions equalMassParams) 45 e45
        (by norm_num [update_positions, wallAdjust, equalMassParams,
          abs_of_nonpos, abs_of_nonneg])
    have e47 : (update_positions equalMassParams)^[47] (reset_simulation (-43/20) (-49/10))
        = (⟨(-6021/2000), (-303/1000), (-43/20), (-49/10), 47/100, (-1)⟩ : State) :=
      iterate_chain (update_positions equalMassParams) 46 e46
        (by norm_num [update_positions, wallAdjust, equalMassParams,
          abs_of_nonpos, abs_of_nonneg])
    have e48 : (update_positions equalMassParams)^[48] (reset_simulation (-43/20) (-49/10))
        = (⟨(-379/125), (-44/125), (-43/20), (-49/10), 12/25, (-1)⟩ : State) :=
      iterate_chain (update_positions equalMassParams) 47 e47
        (by norm_num [update_positions, wallAdjust, equalMassParams,
          abs_of_nonpos, abs_of_nonneg])
    have e49 : (update_positions equalMassParams)^[49] (reset_simulation (-43/20) (-49/10))
        = (⟨(-6107/2000), (-401/1000), (-43/20), (-49/10), 49/100, (-1)⟩ : State) :=
      iterate_chain (update_positions equalMassParams) 48 e48
        (by norm_num [update_positions, wallAdjust, equalMassParams,
          abs_of_nonpos, abs_of_nonneg])
    have e50 : (update_positions equalMassParams)^[50] (reset_simulation (-43/20) (-49/10))
        = (⟨(-123/40), (-9/20), (-43/20), (-49/10), 1/2, (-1)⟩ : State) :=
      iterate_chain (update_positions equalMassParams) 49 e49
        (by norm_num [update_positions, wallAdjust, equalMassParams,
          abs_of_nonpos, abs_of_nonneg])
    have e51 : (update_positions equalMassParams)^[51] (reset_simulation (-43/20) (-49/10))
        = (⟨(-6193/2000), (-499/1000), (-43/20), (-49/10), 51/100, (-1)⟩ : State) :=
      iterate_chain (update_positions equalMassParams) 50 e50
        (by norm_num [update_positions, wallAdjust, equalMassParams,
          abs_of_nonpos, abs_of_nonneg])
    have e52 : (update_positions equalMassParams)^[52] (reset_simulation (-43/20) (-49/10))
        = (⟨(-1559/500), (-137/250), (-43/20), (-49/10), 13/25, (-1)⟩ : State) :=
      iterate_chain (update_positions equalMassParams) 51 e51
        (by norm_num [update_positions, wallAdjust, equalMassParams,
          abs_of_nonpos, abs_of_nonneg])
    have e53 : (update_positions equalMassParams)^[53] (reset_simulation (-43/20) (-49/10))
        = (⟨(-6279/2000), (-597/1000), (-43/20), (-49/10), 53/100, (-1)⟩ : State) :=
      iterate_chain (update_positions equalMassParams) 52 e52
        (by norm_num [update_positions, wallAdjust, equalMassParams,
          abs_of_nonpos, abs_of_nonneg])
    have e54 : (update_positions equalMassParams)^[54] (reset_simulation (-43/20) (-49/10))
        = (⟨(-3161/1000), (-323/500), (-43/20), (-49/10), 27/50, (-1)⟩ : State) :=
      iterate_chain (update_positions equalMassParams) 53 e53
        (by norm_num [update_positions, wallAdjust, equalMassParams,
          abs_of_nonpos, abs_of_nonneg])
    have e55 : (update_positions equalMassParams)^[55] (reset_simulation (-43/20) (-49/10))
        = (⟨(-1273/400), (-139/200), (-43/20), (-49/10), 11/20, (-1)⟩ : State) :=
      iterate_chain (update_positions equalMassParams) 54 e54
        (by norm_num [update_positions, wallAdjust, equalMassParams,
          abs_of_nonpos, abs_of_nonneg])
    have e56 : (update_positions equalMassParams)^[56] (reset_simulation (-43/20) (-49/10))
        = (⟨(-801/250), (-93/125), (-43/20), (-49/10), 14/25, (-1)⟩ : State) :=
      iterate_chain (update_positions equalMassParams) 55 e55
        (by norm_num [update_positions, wallAdjust, equalMassParams,
          abs_of_nonpos, abs_of_nonneg])
    have e57 : (update_positions equalMassParams)^[57] (reset_simulation (-43/20) (-49/10))
        = (⟨(-6451/2000), (-793/1000), (-43/20), (-49/10), 57/100, (-1)⟩ : State) :=
      iterate_chain (update_positions equalMassParams) 56 e56
        (by norm_num [update_positions, wallAdjust, equalMassParams,
          abs_of_nonpos, abs_of_nonneg])
    have e58 : (update_positions equalMassParams)^[58] (reset_simulation (-43/20) (-49/10))
        = (⟨(-3247/1000), (-421/500), (-43/20), (-49/10), 29/50, (-1)⟩ : State) :=
      iterate_chain (update_positions equalMassParams) 57 e57
        (by norm_num [update_positions, wallAdjust, equalMassParams,
          abs_of_nonpos, abs_of_nonneg])
    have e59 : (update_positions equalMassParams)^[59] (reset_simulation (-43/20) (-49/10))
        = (⟨(-6537/2000), (-891/1000), (-43/20), (-49/10), 59/100, (-1)⟩ : State) :=
      iterate_chain (update_positions equalMassParams) 58 e58
        (by norm_num [update_positions, wallAdjust, equalMassParams,
          abs_of_nonpos, abs_of_nonneg])
    have e60 : (update_positions equalMassParams)^[60] (reset_simulation (-43/20) (-49/10))
        = (⟨(-329/100), (-47/50), (-43/20), (-49/10), 3/5, (-1)⟩ : State) :=
      iterate_chain (update_positions equalMassParams) 59 e59
        (by norm_num [update_positions, wallAdjust, equalMassParams,
          abs_of_nonpos, abs_of_nonneg])
    have e61 : (update_positions equalMassParams)^[61] (reset_simulation (-43/20) (-49/10))
        = (⟨(-6623/2000), (-989/1000), (-43/20), (-49/10), 61/100, (-1)⟩ : State) :=
      iterate_chain (update_positions equalMassParams) 60 e60
        (by norm_num [update_positions, wallAdjust, equalMassParams,
          abs_of_nonpos, abs_of_nonneg])
    have e62 : (update_positions equalMassParams)^[62] (reset_simulation (-43/20) (-49/10))
        = (⟨(-3333/1000), (-519/500), (-43/20), (-49/10), 31/50, (-1)⟩ : State) :=
      iterate_chain (update_positions equalMassParams) 61 e61
        (by norm_num [update_positions, wallAdjust, equalMassParams,
          abs_of_nonpos, abs_of_nonneg])
    have e63 : (update_positions equalMassParams)^[63] (reset_simulation (-43/20) (-49/10))
        = (⟨(-6709/2000), (-1087/1000), (-43/20), (-49/10), 63/100, (-1)⟩ : State) :=
      iterate_chain (update_positions equalMassParams) 62 e62
        (by norm_num [update_positions, wallAdjust, equalMassParams,
          abs_of_nonpos, abs_of_nonneg])
    have e64 : (update_positions equalMassParams)^[64] (reset_simulation (-43/20) (-49/10))
        = (⟨(-422/125), (-142/125), (-43/20), (-49/10), 16/25, (-1)⟩ : State) :=
      iterate_chain (update_positions equalMassParams) 63 e63
        (by norm_num [update_positions, wallAdjust, equalMassParams,
          abs_of_nonpos, abs_of_nonneg])
    have e65 : (update_positions equalMassParams)^[65] (reset_simulation (-43/20) (-49/10))
        = (⟨(-1359/400), (-237/200), (-43/20), (-49/10), 13/20, (-1)⟩ : State) :=
      iterate_chain (update_positions equalMassParams) 64 e64
        (by norm_num [update_positions, wallAdjust, equalMassParams,
          abs_of_nonpos, abs_of_nonneg])
    have e66 : (update_positions equalMassParams)^[66] (reset_simulation (-43/20) (-49/10))
        = (⟨(-3419/1000), (-617/500), (-43/20), (-49/10), 33/50, (-1)⟩ : State) :=
      iterate_chain (update_positions equalMassParams) 65 e65
        (by norm_num [update_positions, wallAdjust, equalMassParams,
          abs_of_nonpos, abs_of_nonneg])
    have e67 : (update_positions equalMassParams)^[67] (reset_simulation (-43/20) (-49/10))
        = (⟨(-6881/2000), (-1283/1000), (-43/20), (-49/10), 67/100, (-1)⟩ : State) :=
      iterate_chain (update_positions equalMassParams) 66 e66
        (by norm_num [update_positions, wallAdjust, equalMassParams,
          abs_of_nonpos, abs_of_nonneg])
    have e68 : (update_positions equalMassParams)^[68] (reset_simulation (-43/20) (-49/10))
        = (⟨(-1731/500), (-333/250), (-43/20), (-49/10), 17/25, (-1)⟩ : State) :=
      iterate_chain (update_positions equalMassParams) 67 e67
        (by norm_num [update_positions, wallAdjust, equalMassParams,
          abs_of_nonpos, abs_of_nonneg])
    have e69 : (update_positions equalMassParams)^[69] (reset_simulation (-43/20) (-49/10))
        = (⟨(-6967/2000), (-1381/1000), (-43/20), (-49/10), 69/100, (-1)⟩ : State) :=
      iterate_chain (update_positions equalMassParams) 68 e68
        (by norm_num [update_positions, wallAdjust, equalMassParams,
          abs_of_nonpos, abs_of_nonneg])
    have e70 : (update_positions equalMassParams)^[70] (reset_simulation (-43/20) (-49/10))
        = (⟨(-701/200), (-143/100), (-43/20), (-49/10), 7/10, (-1)⟩ : State) :=
      iterate_chain (update_positions equalMassParams) 69 e69
        (by norm_num [update_positions, wallAdjust, equalMassParams,
          abs_of_nonpos, abs_of_nonneg])
    have e71 : (update_positions equalMassParams)^[71] (reset_simulation (-43/20) (-49/10))
        = (⟨(-7053/2000), (-1479/1000), (-43/20), (-49/10), 71/100, (-1)⟩ : State) :=
      iterate_chain (update_positions equalMassParams) 70 e70
        (by norm_num [update_positions, wallAdjust, equalMassParams,
          abs_of_nonpos, abs_of_nonneg])
    have e72 : (update_positions equalMassParams)^[72] (reset_simulation (-43/20) (-49/10))
        = (⟨(-887/250), (-191/125), (-43/20), (-49/10), 18/25, (-1)⟩ : State) :=
      iterate_chain (update_positions equalMassParams) 71 e71
        (by norm_num [update_positions, wallAdjust, equalMassParams,
          abs_of_nonpos, abs_of_nonneg])
    have e73 : (update_positions equalMassParams)^[73] (reset_simulation (-43/20) (-49/10))
        = (⟨(-7139/2000), (-1577/1000), (-43/20), (-49/10), 73/100, (-1)⟩ : State) :=
      iterate_chain (update_positions equalMassParams) 72 e72
        (by norm_num [update_positions, wallAdjust, equalMassParams,
          abs_of_nonpos, abs_of_nonneg])
    have e74 : (update_positions equalMassParams)^[74] (reset_simulation (-43/20) (-49/10))
        = (⟨(-3591/1000), (-813/500), (-43/20), (-49/10), 37/50, (-1)⟩ : State) :=
      iterate_chain (update_positions equalMassParams) 73 e73
        (by norm_num [update_positions, wallAdjust, equalMassParams,
          abs_of_nonpos, abs_of_nonneg])
    have e75 : (update_positions equalMassParams)^[75] (reset_simulation (-43/20) (-49/10))
        = (⟨(-289/80), (-67/40), (-43/20), (-49/10), 3/4, (-1)⟩ : State) :=
      iterate_chain (update_positions equalMassParams) 74 e74
        (by norm_num [update_positions, wallAdjust, equalMassParams,
          abs_of_nonpos, abs_of_nonneg])
    have e76 : (update_positions equalMassParams)^[76] (reset_simulation (-43/20) (-49/10))
        = (⟨(-1817/500), (-431/250), (-43/20), (-49/10), 19/25, (-1)⟩ : State) :=
      iterate_chain (update_positions equalMassParams) 75 e75
        (by norm_num [update_positions, wallAdjust, equalMassParams,
          abs_of_nonpos, abs_of_nonneg])
    have e77 : (update_positions equalMassParams)^[77] (reset_simulation (-43/20) (-49/10))
        = (⟨(-7311/2000), (-1773/1000), (-43/20), (-49/10), 77/100, (-1)⟩ : State) :=
      iterate_chain (update_positions equalMassParams) 76 e76
        (by norm_num [update_positions, wallAdjust, equalMassParams,
          abs_of_nonpos, abs_of_nonneg])
    have e78 : (update_positions equalMassParams)^[78] (reset_simulation (-43/20) (-49/10))
        = (⟨(-3677/1000), (-911/500), (-43/20), (-49/10), 39/50, (-1)⟩ : State) :=
      iterate_chain (update_positions equalMassParams) 77 e77
        (by norm_num [update_positions, wallAdjust, equalMassParams,
          abs_of_nonpos, abs_of_nonneg])
    have e79 : (update_positions equalMassParams)^[79] (reset_simulation (-43/20) (-49/10))
        = (⟨(-7397/2000), (-1871/1000), (-43/20), (-49/10), 79/100, (-1)⟩ : State) :=
      iterate_chain (update_positions equalMassParams) 78 e78
        (by norm_num [update_positions, wallAdjust, equalMassParams,
          abs_of_nonpos, abs_of_nonneg])
    have e80 : (update_positions equalMassParams)^[80] (reset_simulation (-43/20) (-49/10))
        = (⟨(-93/25), (-48/25), (-43/20), (-49/10), 4/5, (-1)⟩ : State) :=
      iterate_chain (update_positions equalMassParams) 79 e79
        (by norm_num [update_positions, wallAdjust, equalMassParams,
          abs_of_nonpos, abs_of_nonneg])
    have e81 : (update_positions equalMassParams)^[81] (reset_simulation (-43/20) (-49/10))
        = (⟨(-7483/2000), (-1969/1000), (-43/20), (-49/10), 81/100, (-1)⟩ : State) :=
      iterate_chain (update_positions equalMassParams) 80 e80
        (by norm_num [update_positions, wallAdjust, equalMassParams,
          abs_of_nonpos, abs_of_nonneg])
    have e82 : (update_positions equalMassParams)^[82] (reset_simulation (-43/20) (-49/10))
        = (⟨(-3763/1000), (-1009/500), (-43/20), (-49/10), 41/50, (-1)⟩ : State) :=
      iterate_chain (update_positions equalMassParams) 81 e81
        (by norm_num [update_positions, wallAdjust, equalMassParams,
          abs_of_nonpos, abs_of_nonneg])
    have e83 : (update_positions equalMassParams)^[83] (reset_simulation (-43/20) (-49/10))
        = (⟨(-7569/2000), (-2067/1000), (-43/20), (-49/10), 83/100, (-1)⟩ : State) :=
      iterate_chain (update_positions equalMassParams) 82 e82
        (by norm_num [update_positions, wallAdjust, equalMassParams,
          abs_of_nonpos, abs_of_nonneg])
    have e84 : (update_positions equalMassParams)^[84] (reset_simulation (-43/20) (-49/10))
        = (⟨(-1903/500), (-529/250), (-43/20), (-49/10), 21/25, (-1)⟩ : State) :=
      iterate_chain (update_positions equalMassParams) 83 e83
        (by norm_num [update_positions, wallAdjust, equalMassParams,
          abs_of_nonpos, abs_of_nonneg])
    have e85 : (update_positions equalMassParams)^[85] (reset_simulation (-43/20) (-49/10))
        = (⟨(-1531/400), (-433/200), (-43/20), (-49/10), 17/20, (-1)⟩ : State) :=
      iterate_chain (update_positions equalMassParams) 84 e84
        (by norm_num [update_positions, wallAdjust, equalMassParams,
          abs_of_nonpos, abs_of_nonneg])
    have e86 : (update_positions equalMassParams)^[86] (reset_simulation (-43/20) (-49/10))
        = (⟨(-3849/1000), (-1107/500), (-43/20), (-49/10), 43/50, (-1)⟩ : State) :=
      iterate_chain (update_positions equalMassParams) 85 e85
        (by norm_num [update_positions, wallAdjust, equalMassParams,
          abs_of_nonpos, abs_of_nonneg])
    have e87 : (update_positions equalMassParams)^[87] (reset_simulation (-43/20) (-49/10))
        = (⟨(-7741/2000), (-2263/1000), (-43/20), (-49/10), 87/100, (-1)⟩ : State) :=
      iterate_chain (update_positions equalMassParams) 86 e86
        (by norm_num [update_positions, wallAdjust, equalMassParams,
          abs_of_nonpos, abs_of_nonneg])
    have e88 : (update_positions equalMassParams)^[88] (reset_simulation (-43/20) (-49/10))
        = (⟨(-973/250), (-289/125), (-43/20), (-49/10), 22/25, (-1)⟩ : State) :=
      iterate_chain (update_positions equalMassParams) 87 e87
        (by norm_num [update_positions, wallAdjust, equalMassParams,
          abs_of_nonpos, abs_of_nonneg])
    have e89 : (update_positions equalMassParams)^[89] (reset_simulation (-43/20) (-49/10))
        = (⟨(-7827/2000), (-2361/1000), (-43/20), (-49/10), 89/100, (-1)⟩ : State) :=
      iterate_chain (update_positions equalMassParams) 88 e88
        (by norm_num [update_positions, wallAdjust, equalMassParams,
          abs_of_nonpos, abs_of_nonneg])
    have e90 : (update_positions equalMassParams)^[90] (reset_simulation (-43/20) (-49/10))
        = (⟨(-787/200), (-241/100), (-43/20), (-49/10), 9/10, (-1)⟩ : State) :=
      iterate_chain (update_positions equalMassParams) 89 e89
        (by norm_num [update_positions, wallAdjust, equalMassParams,
          abs_of_nonpos, abs_of_nonneg])
    have e91 : (update_positions equalMassParams)^[91] (reset_simulation (-43/20) (-49/10))
        = (⟨(-7913/2000), (-2459/1000), (-43/20), (-49/10), 91/100, (-1)⟩ : State) :=
      iterate_chain (update_positions equalMassParams) 90 e90
        (by norm_num [update_positions, wallAdjust, equalMassParams,
          abs_of_nonpos, abs_of_nonneg])
    have e92 : (update_positions equalMassParams)^[92] (reset_simulation (-43/20) (-49/10))
        = (⟨(-1989/500), (-627/250), (-43/20), (-49/10), 23/25, (-1)⟩ : State) :=
      iterate_chain (update_positions equalMassParams) 91 e91
        (by norm_num [update_positions, wallAdjust, equalMassParams,
          abs_of_nonpos, abs_of_nonneg])
    have e93 : (update_positions equalMassParams)^[93] (reset_simulation (-43/20) (-49/10))
        = (⟨(-7999/2000), (-2557/1000), (-43/20), (-49/10), 93/100, (-1)⟩ : State) :=
      iterate_chain (update_positions equalMassParams) 92 e92
        (by norm_num [update_positions, wallAdjust, equalMassParams,
          abs_of_nonpos, abs_of_nonneg])
    have e94 : (update_positions equalMassParams)^[94] (reset_simulation (-43/20) (-49/10))
        = (⟨(-4021/1000), (-1303/500), (-43/20), (-49/10), 47/50, (-1)⟩ : State) :=
      iterate_chain (update_positions equalMassParams) 93 e93
        (by norm_num [update_positions, wallAdjust, equalMassParams,
          abs_of_nonpos, abs_of_nonneg])
    have e95 : (update_positions equalMassParams)^[95] (reset_simulation (-43/20) (-49/10))
        = (⟨(-1617/400), (-531/200), (-43/20), (-49/10), 19/20, (-1)⟩ : State) :=
      iterate_chain (update_positions equalMassParams) 94 e94
        (by norm_num [update_positions, wallAdjust, equalMassParams,
          abs_of_nonpos, abs_of_nonneg])
    have e96 : (update_positions equalMassParams)^[96] (reset_simulation (-43/20) (-49/10))
        = (⟨(-508/125), (-338/125), (-43/20), (-49/10), 24/25, (-1)⟩ : State) :=
      iterate_chain (update_positions equalMassParams) 95 e95
        (by norm_num [update_positions, wallAdjust, equalMassParams,
          abs_of_nonpos, abs_of_nonneg])
    have e97 : (update_positions equalMassParams)^[97] (reset_simulation (-43/20) (-49/10))
        = (⟨(-8171/2000), (-2753/1000), (-43/20), (-49/10), 97/100, (-1)⟩ : State) :=
      iterate_chain (update_positions equalMassParams) 96 e96
        (by norm_num [update_positions, wallAdjust, equalMassParams,
          abs_of_nonpos, abs_of_nonneg])
    have e98 : (update_positions equalMassParams)^[98] (reset_simulation (-43/20) (-49/10))
        = (⟨(-4107/1000), (-1401/500), (-43/20), (-49/10), 49/50, (-1)⟩ : State) :=
      iterate_chain (update_positions equalMassParams) 97 e97
        (by norm_num [update_positions, wallAdjust, equalMassParams,
          abs_of_nonpos, abs_of_nonneg])
    have e99 : (update_positions equalMassParams)^[99] (reset_simulation (-43/20) (-49/10))
        = (⟨(-8257/2000), (-2851/1000), (-43/20), (-49/10), 99/100, (-1)⟩ : State) :=
      iterate_chain (update_positions equalMassParams) 98 e98
        (by norm_num [update_positions, wallAdjust, equalMassParams,
          abs_of_nonpos, abs_of_nonneg])
    have e100 : (update_positions equalMassParams)^[100] (reset_simulation (-43/20) (-49/10))
        = (⟨(-83/20), (-29/10), (-43/20), (-49/10), 1, (-1)⟩ : State) :=
      iterate_chain (update_positions equalMassParams) 99 e99
        (by norm_num [update_positions, wallAdjust, equalMassParams,
          abs_of_nonpos, abs_of_nonneg])
    have e101 : (update_positions equalMassParams)^[101] (reset_simulation (-43/20) (-49/10))
        = (⟨(-8343/2000), (-2949/1000), (-43/20), (-49/10), 101/100, (-1)⟩ : State) :=
      iterate_chain (update_positions equalMassParams) 100 e100
        (by norm_num [update_positions, wallAdjust, equalMassParams,
          abs_of_nonpos, abs_of_nonneg])
    have e102 : (update_positions equalMassParams)^[102] (reset_simulation (-43/20) (-49/10))
        = (⟨(-4193/1000), (-1499/500), (-43/20), (-49/10), 51/50, (-1)⟩ : State) :=
      iterate_chain (update_positions equalMassParams) 101 e101
        (by norm_num [update_positions, wallAdjust, equalMassParams,
          abs_of_nonpos, abs_of_nonneg])
    have e103 : (update_positions equalMassParams)^[103] (reset_simulation (-43/20) (-49/10))
        = (⟨(-8429/2000), (-3047/1000), (-43/20), (-49/10), 103/100, (-1)⟩ : State) :=
      iterate_chain (update_positions equalMassParams) 102 e102
        (by norm_num [update_positions, wallAdjust, equalMassParams,
          abs_of_nonpos, abs_of_nonneg])
    have e104 : (update_positions equalMassParams)^[104] (reset_simulation (-43/20) (-49/10))
        = (⟨(-1059/250), (-387/125), (-43/20), (-49/10), 26/25, (-1)⟩ : State) :=
      iterate_chain (update_positions equalMassParams) 103 e103
        (by norm_num [update_positions, wallAdjust, equalMassParams,
          abs_of_nonpos, abs_of_nonneg])
    have e105 : (update_positions equalMassParams)^[105] (reset_simulation (-43/20) (-49/10))
        = (⟨(-1703/400), (-629/200), (-43/20), (-49/10), 21/20, (-1)⟩ : State) :=
      iterate_chain (update_positions equalMassParams) 104 e104
        (by norm_num [update_positions, wallAdjust, equalMassParams,
          abs_of_nonpos, abs_of_nonneg])
    have e106 : (update_positions equalMassParams)^[106] (reset_simulation (-43/20) (-49/10))
        = (⟨(-4279/1000), (-1597/500), (-43/20), (-49/10), 53/50, (-1)⟩ : State) :=
      iterate_chain (update_positions equalMassParams) 105 e105
        (by norm_num [update_positions, wallAdjust, equalMassParams,
          abs_of_nonpos, abs_of_nonneg])
    have e107 : (update_positions equalMassParams)^[107] (reset_simulation (-43/20) (-49/10))
        = (⟨(-8601/2000), (-3243/1000), (-43/20), (-49/10), 107/100, (-1)⟩ : State) :=
      iterate_chain (update_positions equalMassParams) 106 e106
        (by norm_num [update_positions, wallAdjust, equalMassParams,
          abs_of_nonpos, abs_of_nonneg])
    have e108 : (update_positions equalMassParams)^[108] (reset_simulation (-43/20) (-49/10))
        = (⟨(-2161/500), (-823/250), (-43/20), (-49/10), 27/25, (-1)⟩ : State) :=
      iterate_chain (update_positions equalMassParams) 107 e107
        (by norm_num [update_positions, wallAdjust, equalMassParams,
          abs_of_nonpos, abs_of_nonneg])
    have e109 : (update_positions equalMassParams)^[109] (reset_simulation (-43/20) (-49/10))
        = (⟨(-8687/2000), (-3341/1000), (-43/20), (-49/10), 109/100, (-1)⟩ : State) :=
      iterate_chain (update_positions equalMassParams) 108 e108
        (by norm_num [update_positions, wallAdjust, equalMassParams,
          abs_of_nonpos, abs_of_nonneg])
    have e110 : (update_positions equalMassParams)^[110] (reset_simulation (-43/20) (-49/10))
        = (⟨(-873/200), (-339/100), (-43/20), (-49/10), 11/10, (-1)⟩ : State) :=
      iterate_chain (update_positions equalMassParams) 109 e109
        (by norm_num [update_positions, wallAdjust, equalMassParams,
          abs_of_nonpos, abs_of_nonneg])
    have e111 : (update_positions equalMassParams)^[111] (reset_simulation (-43/20) (-49/10))
        = (⟨(-8773/2000), (-3439/1000), (-43/20), (-49/10), 111/100, (-1)⟩ : State) :=
      iterate_chain (update_positions equalMassParams) 110 e110
        (by norm_num [update_positions, wallAdjust, equalMassParams,
          abs_of_nonpos, abs_of_nonneg])
    have e112 : (update_positions equalMassParams)^[112] (reset_simulation (-43/20) (-49/10))
        = (⟨(-551/125), (-436/125), (-43/20), (-49/10), 28/25, (-1)⟩ : State) :=
      iterate_chain (update_positions equalMassParams) 111 e111
        (by norm_num [update_positions, wallAdjust, equalMassParams,
          abs_of_nonpos, abs_of_nonneg])
    have e113 : (update_positions equalMassParams)^[113] (reset_simulation (-43/20) (-49/10))
        = (⟨(-8859/2000), (-3537/1000), (-43/20), (-49/10), 113/100, (-1)⟩ : State) :=
      iterate_chain (update_positions equalMassParams) 112 e112
        (by norm_num [update_positions, wallAdjust, equalMassParams,
          abs_of_nonpos, abs_of_nonneg])
    have e114 : (update_positions equalMassParams)^[114] (reset_simulation (-43/20) (-49/10))
        = (⟨(-4451/1000), (-1793/500), (-43/20), (-49/10), 57/50, (-1)⟩ : State) :=
      iterate_chain (update_positions equalMassParams) 113 e113
        (by norm_num [update_positions, wallAdjust, equalMassParams,
          abs_of_nonpos, abs_of_nonneg])
    have e115 : (update_positions equalMassParams)^[115] (reset_simulation (-43/20) (-49/10))
        = (⟨(-1789/400), (-727/200), (-43/20), (-49/10), 23/20, (-1)⟩ : State) :=
      iterate_chain (update_positions equalMassParams) 114 e114
        (by norm_num [update_positions, wallAdjust, equalMassParams,
          abs_of_nonpos, abs_of_nonneg])
    have e116 : (update_positions equalMassParams)^[116] (reset_simulation (-43/20) (-49/10))
        = (⟨(-2247/500), (-921/250), (-43/20), (-49/10), 29/25, (-1)⟩ : State) :=
      iterate_chain (update_positions equalMassParams) 115 e115
        (by norm_num [update_positions, wallAdjust, equalMassParams,
          abs_of_nonpos, abs_of_nonneg])
    have e117 : (update_positions equalMassParams)^[117] (reset_simulation (-43/20) (-49/10))
        = (⟨(-9031/2000), (-3733/1000), (-43/20), (-49/10), 117/100, (-1)⟩ : State) :=
      iterate_chain (update_positions equalMassParams) 116 e116
        (by norm_num [update_positions, wallAdjust, equalMassParams,
          abs_of_nonpos, abs_of_nonneg])
    have e118 : (update_positions equalMassParams)^[118] (reset_simulation (-43/20) (-49/10))
        = (⟨(-4537/1000), (-1891/500), (-43/20), (-49/10), 59/50, (-1)⟩ : State) :=
      iterate_chain (update_positions equalMassParams) 117 e117
        (by norm_num [update_positions, wallAdjust, equalMassParams,
          abs_of_nonpos, abs_of_nonneg])
    have e119 : (update_positions equalMassParams)^[119] (reset_simulation (-43/20) (-49/10))
        = (⟨(-9117/2000), (-3831/1000), (-43/20), (-49/10), 119/100, (-1)⟩ : State) :=
      iterate_chain (update_positions equalMassParams) 118 e118
        (by norm_num [update_positions, wallAdjust, equalMassParams,
          abs_of_nonpos, abs_of_nonneg])
    have e120 : (update_positions equalMassParams)^[120] (reset_simulation (-43/20) (-49/10))
        = (⟨(-229/50), (-97/25), (-43/20), (-49/10), 6/5, (-1)⟩ : State) :=
      iterate_chain (update_positions equalMassParams) 119 e119
        (by norm_num [update_positions, wallAdjust, equalMassParams,
          abs_of_nonpos, abs_of_nonneg])
    have e121 : (update_positions equalMassParams)^[121] (reset_simulation (-43/20) (-49/10))
        = (⟨(-9203/2000), (-3929/1000), (-43/20), (-49/10), 121/100, (-1)⟩ : State) :=
      iterate_chain (update_positions equalMassParams) 120 e120
        (by norm_num [update_positions, wallAdjust, equalMassParams,
          abs_of_nonpos, abs_of_nonneg])
    have e122 : (update_positions equalMassParams)^[122] (reset_simulation (-43/20) (-49/10))
        = (⟨(-4623/1000), (-1989/500), (-43/20), (-49/10), 61/50, (-1)⟩ : State) :=
      iterate_chain (update_positions equalMassParams) 121 e121
        (by norm_num [update_positions, wallAdjust, equalMassParams,
          abs_of_nonpos, abs_of_nonneg])
    have e123 : (update_positions equalMassParams)^[123] (reset_simulation (-43/20) (-49/10))
        = (⟨(-9289/2000), (-4027/1000), (-43/20), (-49/10), 123/100, (-1)⟩ : State) :=
      iterate_chain (update_positions equalMassParams) 122 e122
        (by norm_num [update_positions, wallAdjust, equalMassParams,
          abs_of_nonpos, abs_of_nonneg])
    have e124 : (update_positions equalMassParams)^[124] (reset_simulation (-43/20) (-49/10))
        = (⟨(-2333/500), (-1019/250), (-43/20), (-49/10), 31/25, (-1)⟩ : State) :=
      iterate_chain (update_positions equalMassParams) 123 e123
        (by norm_num [update_positions, wallAdjust, equalMassParams,
          abs_of_nonpos, abs_of_nonneg])
    have e125 : (update_positions equalMassParams)^[125] (reset_simulation (-43/20) (-49/10))
        = (⟨(-75/16), (-33/8), (-43/20), (-49/10), 5/4, (-1)⟩ : State) :=
      iterate_chain (update_positions equalMassParams) 124 e124
        (by norm_num [update_positions, wallAdjust, equalMassParams,
          abs_of_nonpos, abs_of_nonneg])
    have e126 : (update_positions equalMassParams)^[126] (reset_simulation (-43/20) (-49/10))
        = (⟨(-4709/1000), (-2087/500), (-43/20), (-49/10), 63/50, (-1)⟩ : State) :=
      iterate_chain (update_positions equalMassParams) 125 e125
        (by norm_num [update_positions, wallAdjust, equalMassParams,
          abs_of_nonpos, abs_of_nonneg])
    have e127 : (update_positions equalMassParams)^[127] (reset_simulation (-43/20) (-49/10))
        = (⟨(-9461/2000), (-4223/1000), (-43/20), (-49/10), 127/100, (-1)⟩ : State) :=
      iterate_chain (update_positions equalMassParams) 126 e126
        (by norm_num [update_positions, wallAdjust, equalMassParams,
          abs_of_nonpos, abs_of_nonneg])
    have e128 : (update_positions equalMassParams)^[128] (reset_simulation (-43/20) (-49/10))
        = (⟨(-4761/1000), (-4261/1000), (-49/10), 43/20, 32/25, 32/25⟩ : State) :=
      iterate_chain (update_positions equalMassParams) 127 e127
        (by norm_num [update_positions, wallAdjust, equalMassParams,
          abs_of_nonpos, abs_of_nonneg])

    rw [e128]
    norm_num [inWalls, equalMassParams]

end ElasticCollision

namespace AtwoodMachine

/-- Parameters of `AtwoodMachine` (src/atwood_machine.py,
`setup_parameters`): time step, horizon, masses, gravity and string
length. -/
structure Params where
  dt : ℚ
  t_max : ℚ
  m1 : ℚ
  m2 : ℚ
  g : ℚ
  string_length : ℚ
  deriving DecidableEq

/-- State of the machine: heights, velocities and elapsed time. -/
structure State where
  y1 : ℚ
  y2 : ℚ
  v1 : ℚ
  v2 : ℚ
  current_time : ℚ
  deriving DecidableEq

/-- The numeric defaults of `setup_parameters`:
`dt=0.02, t_max=10, m1=1, m2=2, g=9.81, string_length=4`. -/
def defaultParams : Params :=
  { dt := 1/50, t_max := 10, m1 := 1, m2 := 2, g := 981/100, string_length := 4 }

/-- The derived constant of `reset_simulation`:
`acceleration = (m2 - m1) g / (m1 + m2)`. -/
def acceleration (p : Params) : ℚ := (p.m2 - p.m1) * p.g / (p.m1 + p.m2)

/-- `reset_simulation`: `y1 = 1.5`, `y2 = -1.5`, both velocities zero,
time zero. -/
def reset_simulation : State :=
  { y1 := 3/2, y2 := -3/2, v1 := 0, v2 := 0, current_time := 0 }

/-- The string-constraint block of `update_physics` (lines 63-74): when
the separation exceeds `string_length`, clamp both positions
symmetrically about their midpoint. -/
def constrain (string_length y1 y2 : ℚ) : ℚ × ℚ :=
  if |y1 - y2| > string_length then
    let midpoint := (y1 + y2) / 2
    if y1 > y2 then (midpoint + string_length / 2, midpoint - string_length / 2)
    else (midpoint - string_length / 2, midpoint + string_length / 2)
  else (y1, y2)

/-- `AtwoodMachine.update_physics` (src/atwood_machine.py lines 53-92,
sans the plotting history): explicit Euler on velocities (equal and
opposite acceleration) and positions, then the string-length constraint
projection, then the time update. -/
def update_physics (p : Params) (s : State) : State :=
  let v1 := s.v1 + acceleration p * p.dt
  let v2 := s.v2 - acceleration p * p.dt
  let y1 := s.y1 + v1 * p.dt
  let y2 := s.y2 + v2 * p.dt
  let c := constrain p.string_length y1 y2
  { y1 := c.1, y2 := c.2, v1 := v1, v2 := v2, current_time := s.current_time + p.dt }

/-- `animate_frame` (lines 292-295): physics advances only while not
paused and `current_time < t_max`. -/
def animate_frame (p : Params) (paused : Bool) (s : State) : State :=
  if ¬paused ∧ s.current_time < p.t_max then update_physics p s else s

/-- Helper: the constraint projection always leaves the midpoint
`(y1+y2)/2` unchanged. -/
lemma constrain_midpoint (L y1 y2 : ℚ) :
    ((constrain L y1 y2).1 + (constrain L y1 y2).2) / 2 = (y1 + y2) / 2 := by
  unfold constrain
  split_ifs <;> dsimp only <;> ring_nf

/-- Helper: after the constraint projection the separation is at most
`L` (for `0 ≤ L`); in the clamped case it equals `L` exactly. -/
lemma constrain_separation (L y1 y2 : ℚ) (hL : 0 ≤ L) :
    |(constrain L y1 y2).1 - (constrain L y1 y2).2| ≤ L := by
  unfold constrain
  split_ifs with h h12
  · have : (y1 + y2) / 2 + L / 2 - ((y1 + y2) / 2 - L / 2) = L := by ring
    dsimp only
    rw [this, abs_of_nonneg hL]
  · have : (y1 + y2) / 2 - L / 2 - ((y1 + y2) / 2 + L / 2) = -L := by ring
    dsimp only
    rw [this, abs_neg, abs_of_nonneg hL]
  · exact le_of_not_lt h

/-- Helper: in the clamped case the separation becomes exactly `L`. -/
lemma constrain_separation_exact (L y1 y2 : ℚ) (hL : 0 ≤ L)
    (h : |y1 - y2| > L) :
    |(constrain L y1 y2).1 - (constrain L y1 y2).2| = L := by
  unfold constrain
  rw [if_pos h]
  split_ifs with h12
  · have : (y1 + y2) / 2 + L / 2 - ((y1 + y2) / 2 - L / 2) = L := by ring
    dsimp only
    rw [this, abs_of_nonneg hL]
  · have : (y1 + y2) / 2 - L / 2 - ((y1 + y2) / 2 + L / 2) = -L := by ring
    dsimp only
    rw [this, abs_neg, abs_of_nonneg hL]

/-- C3: after every step of any `update_physics` sequence the separation
`|y1 - y2|` is at most `string_length`, and the constraint projection
itself preserves the midpoint `(y1+y2)/2` while setting the separation
to exactly `string_length` whenever it fires. -/
theorem update_physics_string_constraint (p : Params) (hL : 0 ≤ p.string_length) :
    (∀ (s : State) (n : ℕ), 0 < n →
        |((update_physics p)^[n] s).y1 - ((update_physics p)^[n] s).y2|
          ≤ p.string_length) ∧
    (∀ y1 y2 : ℚ,
        ((constrain p.string_length y1 y2).1 + (constrain p.string_length y1 y2).2) / 2
          = (y1 + y2) / 2) ∧
    (∀ y1 y2 : ℚ, |y1 - y2| > p.string_length →
        |(constrain p.string_length y1 y2).1 - (constrain p.string_length y1 y2).2|
          = p.string_length) := by
  refine ⟨?_, fun y1 y2 => constrain_midpoint _ y1 y2,
    fun y1 y2 h => constrain_separation_exact _ y1 y2 hL h⟩
  intro s n hn
  obtain ⟨m, rfl⟩ := Nat.exists_eq_succ_of_ne_zero hn.ne'
  rw [Function.iterate_succ_apply']
  exact constrain_separation p.string_length _ _ hL

/-- Witness for C3 at the default parameters (string length 4) after one
step from the reset state. -/
theorem update_physics_string_constraint_witness :
    (∀ (s : State) (n : ℕ), 0 < n →
        |((update_physics defaultParams)^[n] s).y1
            - ((update_physics defaultParams)^[n] s).y2|
          ≤ defaultParams.string_length) ∧
    (∀ y1 y2 : ℚ,
        ((constrain defaultParams.string_length y1 y2).1
              + (constrain defaultParams.string_length y1 y2).2) / 2
          = (y1 + y2) / 2) ∧
    (∀ y1 y2 : ℚ, |y1 - y2| > defaultParams.string_length →
        |(constrain defaultParams.string_length y1 y2).1
            - (constrain defaultParams.string_length y1 y2).2|
          = defaultParams.string_length) :=
  update_physics_string_constraint defaultParams (by norm_num [defaultParams])

end AtwoodMachine

namespace RigidBodyRotation

/-- Parameters of `RigidBodyRotation` (src/rigid_body_rotation.py,
`setup_parameters` / `reset_simulation`): time step, horizon and the
constant angular acceleration `alpha = torque / I` derived at reset. -/
structure Params where
  dt : ℚ
  t_max : ℚ
  alpha : ℚ
  deriving DecidableEq

/-- State: angular position, angular velocity and elapsed time. -/
structure State where
  theta : ℚ
  omega : ℚ
  current_time : ℚ
  deriving DecidableEq

/-- Defaults: `dt=0.02`, `t_max=10`; `alpha = torque / I = 1 / (0.5·1·0.5²)
= 8` for the default disk (`mass=1, radius=0.5, torque=1`). -/
def defaultParams : Params := { dt := 1/50, t_max := 10, alpha := 8 }

/-- `RigidBodyRotation.update_physics` (src/rigid_body_rotation.py lines
209-224, sans the plotting history): physics advances only while not
paused and `current_time < t_max`; there is no angle wrap in this
engine. -/
def update_physics (p : Params) (paused : Bool) (s : State) : State :=
  if ¬paused ∧ s.current_time < p.t_max then
    let omega := s.omega + p.alpha * p.dt
    let theta := s.theta + omega * p.dt
    { theta := theta, omega := omega, current_time := s.current_time + p.dt }
  else s

end RigidBodyRotation

namespace FreeFall

/-- State of the sibling rotation engine `RigidBodyRotation` defined in
src/free_fall_simulation.py: angle, angular velocity, elapsed time.
Real-valued because its step wraps by multiples of `π`. -/
structure State where
  theta : ℝ
  omega : ℝ
  current_time : ℝ

/-- Python's float modulo for a positive modulus:
`x % m = x - m * floor (x / m)`, the representative in `[0, m)`. -/
noncomputable def pymod (x m : ℝ) : ℝ := x - m * ⌊x / m⌋

/-- `RigidBodyRotation.update_physics` of src/free_fall_simulation.py
(lines 85-111, sans the plotting history): Euler update of `omega` and
`theta`, then the lazy wrap `theta = theta % (2π)` applied only when
`theta > 4π`, then the time update. -/
noncomputable def update_physics (alpha dt : ℝ) (s : State) : State :=
  let omega := s.omega + alpha * dt
  let theta0 := s.theta + omega * dt
  let theta := if theta0 > 4 * Real.pi then pymod theta0 (2 * Real.pi) else theta0
  { theta := theta, omega := omega, current_time := s.current_time + dt }

/-- `pymod x m` lies in `[0, m)` for `m > 0`. -/
lemma pymod_nonneg_lt (x m : ℝ) (hm : 0 < m) : 0 ≤ pymod x m ∧ pymod x m < m := by
  have hfr : pymod x m = m * Int.fract (x / m) := by
    have hm0 : m ≠ 0 := ne_of_gt hm
    unfold pymod Int.fract
    field_simp
  constructor
  · rw [hfr]
    exact mul_nonneg hm.le (Int.fract_nonneg _)
  · rw [hfr]
    calc m * Int.fract (x / m) < m * 1 :=
          (mul_lt_mul_left hm).mpr (Int.fract_lt_one _)
    _ = m := mul_one m

/-- C2: in the rotation engine's per-step update (the
src/free_fall_simulation.py `RigidBodyRotation.update_physics`, the one
with the wrap), the stored angle is wrapped with `% (2π)` exactly when the
freshly integrated angle exceeds `4π` — hence it never exceeds `4π` after
a step (no unbounded growth), it drops below `2π` whenever the wrap
fires, and the wrap is lazy: the stored angle can transiently exceed
`2π` without wrapping. -/
theorem update_physics_theta_wrap :
    (∀ (alpha dt : ℝ) (s : State),
        (update_physics alpha dt s).theta ≤ 4 * Real.pi) ∧
    (∀ (alpha dt : ℝ) (s : State),
        s.theta + (s.omega + alpha * dt) * dt > 4 * Real.pi →
          (update_physics alpha dt s).theta
              = pymod (s.theta + (s.omega + alpha * dt) * dt) (2 * Real.pi) ∧
            (update_physics alpha dt s).theta < 2 * Real.pi) ∧
    (∃ (alpha dt : ℝ) (s : State),
        2 * Real.pi < (update_physics alpha dt s).theta) := by
  have h2pi : (0:ℝ) < 2 * Real.pi := by positivity
  refine ⟨?_, ?_, ?_⟩
  · intro alpha dt s
    unfold update_physics
    dsimp only
    split_ifs with h
    · have := (pymod_nonneg_lt (s.theta + (s.omega + alpha * dt) * dt)
        (2 * Real.pi) h2pi).2
      nlinarith [Real.pi_pos]
    · exact le_of_not_lt h
  · intro alpha dt s h
    unfold update_physics
    dsimp only
    rw [if_pos h]
    exact ⟨rfl, (pymod_nonneg_lt _ _ h2pi).2⟩
  · refine ⟨0, 0, ⟨3 * Real.pi, 0, 0⟩, ?_⟩
    unfold update_physics
    dsimp only
    rw [if_neg (by nlinarith [Real.pi_pos])]
    nlinarith [Real.pi_pos]

end FreeFall

namespace SHM

/-- The parameter names of the SHM simulator's `defaults` dictionary and
sliders (src/SHO.py lines 7-14). -/
inductive ParamKey where
  | amplitude
  | mass
  | springConstant
  | phase
  | duration
  | fps
  deriving DecidableEq

/-- The `defaults` dictionary: `Amplitude 1.0, Mass 1.0,
Spring Constant 1.0, Phase 0.0, Duration 10.0, FPS 60`. -/
def defaults : ParamKey → ℚ
  | .amplitude => 1
  | .mass => 1
  | .springConstant => 1
  | .phase => 0
  | .duration => 10
  | .fps => 60

/-- Iteration order of `for key in self.sliders` — the sliders'
insertion order (src/SHO.py lines 188-207). -/
def sliderKeys : List ParamKey :=
  [.amplitude, .mass, .springConstant, .phase, .duration, .fps]

/-- The keys subjected to the positivity check,
`key in ["Mass", "Spring Constant", "Duration", "FPS"]`. -/
def checkedKeys : List ParamKey :=
  [.mass, .springConstant, .duration, .fps]

/-- `SHMSimulator.submit` (src/SHO.py lines 82-100, the
parameter-validation loop): for each slider key in order, a checked key
whose submitted value is `≤ 0` is reverted to its default, any other key
takes the submitted value. -/
def submit (vals params : ParamKey → ℚ) : ParamKey → ℚ :=
  sliderKeys.foldl
    (fun acc key =>
      Function.update acc key
        (if key ∈ checkedKeys ∧ vals key ≤ 0 then defaults key else vals key))
    params

/-- C9: `submit` validates each field of the batch independently — a
field that fails its positivity domain constraint is reverted to its
documented default, while every other field of the same batch is
accepted as submitted; the batch as a whole is never rejected (the
result never depends on the previous parameter values or on other
fields' validity). -/
theorem submit_per_field (vals params : ParamKey → ℚ) (k : ParamKey) :
    submit vals params k
      = if k ∈ checkedKeys ∧ vals k ≤ 0 then defaults k else vals k := by
  cases k <;>
    simp [submit, sliderKeys, checkedKeys, Function.update]

end SHM

namespace LineDrawerSim

/-- A line segment as held in the `Line2D`: the two endpoints in data
order. -/
structure Segment where
  x0 : ℚ
  y0 : ℚ
  x1 : ℚ
  y1 : ℚ
  deriving DecidableEq

/-- The state of `LineDrawer` (src/snap_line.py): the reference curve
samples `x`, `y`, the optional line, the cumulative offset, and the snap
target index. -/
structure LineDrawer where
  x : List ℚ
  y : List ℚ
  line : Option Segment
  line_offset : ℚ × ℚ
  snap_target_index : ℕ
  deriving DecidableEq

/-- `LineDrawer.snap` (src/snap_line.py lines 123-144): with no line, a
no-op; otherwise translate the line so its midpoint lands on the curve
point at `snap_target_index`, accumulating the translation into
`line_offset`. -/
def snap (d : LineDrawer) : LineDrawer :=
  match d.line with
  | none => d
  | some seg =>
    let x_targ := d.x.getD d.snap_target_index 0
    let y_targ := d.y.getD d.snap_target_index 0
    let mx := (seg.x0 + seg.x1) / 2
    let my := (seg.y0 + seg.y1) / 2
    let dx := x_targ - mx
    let dy := y_targ - my
    { d with
        line := some ⟨seg.x0 + dx, seg.y0 + dy, seg.x1 + dx, seg.y1 + dy⟩,
        line_offset := (d.line_offset.1 + dx, d.line_offset.2 + dy) }

/-- C7: after `snap()` on an existing line (with an in-range target
index), the line's midpoint equals the target curve point
`(x[snap_target_index], y[snap_target_index])` exactly, and the line's
endpoint-difference vector — hence its length and orientation — is
unchanged. -/
theorem snap_midpoint_exact (d : LineDrawer) (seg : Segment)
    (hline : d.line = some seg)
    (hx : d.snap_target_index < d.x.length)
    (hy : d.snap_target_index < d.y.length) :
    ∃ seg' : Segment, (snap d).line = some seg' ∧
      (seg'.x0 + seg'.x1) / 2 = d.x.get ⟨d.snap_target_index, hx⟩ ∧
      (seg'.y0 + seg'.y1) / 2 = d.y.get ⟨d.snap_target_index, hy⟩ ∧
      seg'.x1 - seg'.x0 = seg.x1 - seg.x0 ∧
      seg'.y1 - seg'.y0 = seg.y1 - seg.y0 ∧
      (seg'.x1 - seg'.x0) ^ 2 + (seg'.y1 - seg'.y0) ^ 2
        = (seg.x1 - seg.x0) ^ 2 + (seg.y1 - seg.y0) ^ 2 := by
  refine ⟨_, by unfold snap; rw [hline], ?_, ?_, by ring, by ring, by ring⟩
  · dsimp only
    rw [List.getD_eq_getElem d.x 0 hx, List.get_eq_getElem]
    ring
  · dsimp only
    rw [List.getD_eq_getElem d.y 0 hy, List.get_eq_getElem]
    ring

/-- Witness for C7: a two-point curve, snapping the segment
`(0,0)-(2,1)` to curve index 1. -/
theorem snap_midpoint_exact_witness :
    ∃ seg' : Segment,
      (snap ⟨[0, 1], [5, 7], some ⟨0, 0, 2, 1⟩, (0, 0), 1⟩).line = some seg' ∧
      (seg'.x0 + seg'.x1) / 2
          = List.get (α := ℚ) [0, 1] ⟨1, by norm_num⟩ ∧
      (seg'.y0 + seg'.y1) / 2
          = List.get (α := ℚ) [5, 7] ⟨1, by norm_num⟩ ∧
      seg'.x1 - seg'.x0 = (2:ℚ) - 0 ∧
      seg'.y1 - seg'.y0 = (1:ℚ) - 0 ∧
      (seg'.x1 - seg'.x0) ^ 2 + (seg'.y1 - seg'.y0) ^ 2
        = ((2:ℚ) - 0) ^ 2 + ((1:ℚ) - 0) ^ 2 :=
  snap_midpoint_exact ⟨[0, 1], [5, 7], some ⟨0, 0, 2, 1⟩, (0, 0), 1⟩
    ⟨0, 0, 2, 1⟩ rfl (by norm_num) (by norm_num)

/-- The squared point-to-segment distance of `point_line_dist`
(src/snap_line.py lines 157-162): clamped projection parameter
`t ∈ [0, 1]`, then squared distance to the projected point.  The source
returns the square root of this value; the roots are only compared with
one another in `trim`, and the square root is monotone, so selection by
the squared distance selects the same samples. -/
def point_line_dist_sq (x0 y0 dx dy xp yp : ℚ) : ℚ :=
  let t := ((xp - x0) * dx + (yp - y0) * dy) / (dx ^ 2 + dy ^ 2)
  let tc := max 0 (min t 1)
  let x_proj := x0 + tc * dx
  let y_proj := y0 + tc * dy
  (xp - x_proj) ^ 2 + (yp - y_proj) ^ 2

/-- `LineDrawer.trim` (src/snap_line.py lines 146-169): with no line, a
no-op; otherwise compute each curve sample's (squared) clamped
point-to-segment distance, select the two samples of smallest distance
(the source argsorts and takes the first two; here a mergesort — any
sort agrees on the selected distances, ties aside), order the two
indices ascending, and make them the new endpoints. -/
def trim (d : LineDrawer) : LineDrawer :=
  match d.line with
  | none => d
  | some seg =>
    let dx := seg.x1 - seg.x0
    let dy := seg.y1 - seg.y0
    let dist := fun i : ℕ =>
      point_line_dist_sq seg.x0 seg.y0 dx dy (d.x.getD i 0) (d.y.getD i 0)
    let idxs :=
      ((List.range d.x.length).mergeSort fun i j => decide (dist i ≤ dist j)).take 2
    match idxs with
    | [i, j] =>
      let idx1 := min i j
      let idx2 := max i j
      { d with
          line := some ⟨d.x.getD idx1 0, d.y.getD idx1 0,
            d.x.getD idx2 0, d.y.getD idx2 0⟩ }
    | _ => d

/-- Helper: for `2 ≤ n`, sorting `range n` by a score `f` yields a list
starting with two distinct indices `a, b < n` whose scores are the two
smallest: every other index scores at least as much as either. -/
lemma two_smallest (n : ℕ) (f : ℕ → ℚ) (hn : 2 ≤ n) :
    ∃ (a b : ℕ) (rest : List ℕ),
      (List.range n).mergeSort (fun i j => decide (f i ≤ f j)) = a :: b :: rest ∧
      a ≠ b ∧ a < n ∧ b < n ∧ f a ≤ f b ∧
      ∀ j, j < n → j ≠ a → j ≠ b → f a ≤ f j ∧ f b ≤ f j := by
  have htrans : ∀ x y z : ℕ, (fun i j => decide (f i ≤ f j)) x y = true →
      (fun i j => decide (f i ≤ f j)) y z = true →
      (fun i j => decide (f i ≤ f j)) x z = true := by
    intro x y z hxy hyz
    simp only [decide_eq_true_eq] at *
    exact le_trans hxy hyz
  have htotal : ∀ x y : ℕ,
      ((fun i j => decide (f i ≤ f j)) x y || (fun i j => decide (f i ≤ f j)) y x)
        = true := by
    intro x y
    simp only [Bool.or_eq_true, decide_eq_true_eq]
    exact le_total (f x) (f y)
  have hperm := List.mergeSort_perm (List.range n) fun i j => decide (f i ≤ f j)
  have hsorted := List.sorted_mergeSort htrans htotal (List.range n)
  rcases e : (List.range n).mergeSort (fun i j => decide (f i ≤ f j)) with
    _ | ⟨a, _ | ⟨b, rest⟩⟩
  · rw [e] at hperm
    have := hperm.length_eq
    simp at this
    omega
  · rw [e] at hperm
    have := hperm.length_eq
    simp at this
    omega
  · rw [e] at hperm hsorted
    have hmem : ∀ j, j < n → j ∈ a :: b :: rest := by
      intro j hj
      exact (hperm.mem_iff).mpr (List.mem_range.mpr hj)
    have hlt : ∀ j, j ∈ a :: b :: rest → j < n := by
      intro j hj
      exact List.mem_range.mp ((hperm.mem_iff).mp hj)
    have hnodup : (a :: b :: rest).Nodup :=
      (hperm.nodup_iff).mpr (List.nodup_range _)
    obtain ⟨ha, hsorted'⟩ := List.pairwise_cons.mp hsorted
    obtain ⟨hb, _⟩ := List.pairwise_cons.mp hsorted'
    obtain ⟨hanb, hnodup'⟩ := List.nodup_cons.mp hnodup
    refine ⟨a, b, rest, rfl, ?_, hlt a (by simp), hlt b (by simp), ?_, ?_⟩
    · intro h
      exact hanb (h ▸ List.mem_cons_self b rest)
    · have := ha b (List.mem_cons_self b rest)
      simpa using this
    · intro j hj hja hjb
      have hjmem := hmem j hj
      have hjrest : j ∈ rest := by
        rcases List.mem_cons.mp hjmem with h | h
        · exact absurd h hja
        rcases List.mem_cons.mp h with h' | h'
        · exact absurd h' hjb
        · exact h'
      constructor
      · have := ha j (List.mem_cons_of_mem b hjrest)
        simpa using this
      · have := hb j hjrest
        simpa using this

/-- C8: after `trim()` on an existing nondegenerate line over a curve
with at least two samples, the new endpoints are two curve samples,
ordered by curve index (so the line direction follows the curve's
parametrization order), and no other curve sample is closer to the
segment (clamped point-to-segment distance) than either chosen
endpoint. -/
theorem trim_endpoints (d : LineDrawer) (seg : Segment)
    (hline : d.line = some seg)
    (hlen : 2 ≤ d.x.length)
    (_hnd : (seg.x1 - seg.x0) ^ 2 + (seg.y1 - seg.y0) ^ 2 ≠ 0) :
    ∃ i1 i2 : ℕ, i1 < i2 ∧ i2 < d.x.length ∧
      (trim d).line = some ⟨d.x.getD i1 0, d.y.getD i1 0,
        d.x.getD i2 0, d.y.getD i2 0⟩ ∧
      ∀ j, j < d.x.length → j ≠ i1 → j ≠ i2 →
        point_line_dist_sq seg.x0 seg.y0 (seg.x1 - seg.x0) (seg.y1 - seg.y0)
            (d.x.getD i1 0) (d.y.getD i1 0)
          ≤ point_line_dist_sq seg.x0 seg.y0 (seg.x1 - seg.x0) (seg.y1 - seg.y0)
              (d.x.getD j 0) (d.y.getD j 0) ∧
        point_line_dist_sq seg.x0 seg.y0 (seg.x1 - seg.x0) (seg.y1 - seg.y0)
            (d.x.getD i2 0) (d.y.getD i2 0)
          ≤ point_line_dist_sq seg.x0 seg.y0 (seg.x1 - seg.x0) (seg.y1 - seg.y0)
              (d.x.getD j 0) (d.y.getD j 0) := by
  obtain ⟨a, b, rest, he, hab, han, hbn, hfab, hmin⟩ :=
    two_smallest d.x.length
      (fun i => point_line_dist_sq seg.x0 seg.y0 (seg.x1 - seg.x0) (seg.y1 - seg.y0)
        (d.x.getD i 0) (d.y.getD i 0)) hlen
  have htrim : (trim d).line = some ⟨d.x.getD (min a b) 0, d.y.getD (min a b) 0,
      d.x.getD (max a b) 0, d.y.getD (max a b) 0⟩ := by
    unfold trim
    rw [hline]
    dsimp only
    rw [he]
    rfl
  refine ⟨min a b, max a b, min_lt_max.mpr hab, ?_, htrim, ?_⟩
  · exact max_lt_iff.mpr ⟨han, hbn⟩
  · intro j hj hj1 hj2
    have hja : j ≠ a := by
      rcases le_total a b with h | h
      · rwa [min_eq_left h] at hj1
      · rwa [max_eq_left h] at hj2
    have hjb : j ≠ b := by
      rcases le_total a b with h | h
      · rwa [max_eq_right h] at hj2
      · rwa [min_eq_right h] at hj1
    obtain ⟨hfa, hfb⟩ := hmin j hj hja hjb
    rcases le_total a b with h | h
    · rw [min_eq_left h, max_eq_right h]
      exact ⟨hfa, hfb⟩
    · rw [min_eq_right h, max_eq_left h]
      exact ⟨hfb, hfa⟩

/-- Witness for C8: the segment `(0,0)-(1,0)` over the four-sample curve
`(0,0), (1,0), (2,0), (3,0)`. -/
theorem trim_endpoints_witness :
    ∃ i1 i2 : ℕ, i1 < i2 ∧
      i2 < (LineDrawer.mk [0, 1, 2, 3] [0, 0, 0, 0]
        (some ⟨0, 0, 1, 0⟩) (0, 0) 0).x.length ∧
      (trim (LineDrawer.mk [0, 1, 2, 3] [0, 0, 0, 0]
          (some ⟨0, 0, 1, 0⟩) (0, 0) 0)).line
        = some ⟨([0, 1, 2, 3] : List ℚ).getD i1 0, ([0, 0, 0, 0] : List ℚ).getD i1 0,
            ([0, 1, 2, 3] : List ℚ).getD i2 0, ([0, 0, 0, 0] : List ℚ).getD i2 0⟩ ∧
      ∀ j, j < (LineDrawer.mk [0, 1, 2, 3] [0, 0, 0, 0]
          (some ⟨0, 0, 1, 0⟩) (0, 0) 0).x.length → j ≠ i1 → j ≠ i2 →
        point_line_dist_sq 0 0 (1 - 0) (0 - 0)
            (([0, 1, 2, 3] : List ℚ).getD i1 0) (([0, 0, 0, 0] : List ℚ).getD i1 0)
          ≤ point_line_dist_sq 0 0 (1 - 0) (0 - 0)
              (([0, 1, 2, 3] : List ℚ).getD j 0) (([0, 0, 0, 0] : List ℚ).getD j 0) ∧
        point_line_dist_sq 0 0 (1 - 0) (0 - 0)
            (([0, 1, 2, 3] : List ℚ).getD i2 0) (([0, 0, 0, 0] : List ℚ).getD i2 0)
          ≤ point_line_dist_sq 0 0 (1 - 0) (0 - 0)
              (([0, 1, 2, 3] : List ℚ).getD j 0) (([0, 0, 0, 0] : List ℚ).getD j 0) :=
  trim_endpoints
    (LineDrawer.mk [0, 1, 2, 3] [0, 0, 0, 0] (some ⟨0, 0, 1, 0⟩) (0, 0) 0)
    ⟨0, 0, 1, 0⟩ rfl (by norm_num) (by norm_num)

end LineDrawerSim

/-- C10: the Atwood-machine frame update and the primary rotation
engine's `update_physics` advance physics only while
`current_time < t_max` (both engines set `t_max = 10.0`): once elapsed
time reaches `t_max` the whole state (positions, velocities, angle,
time) is left unchanged even when not paused.  The elastic-collision
engine's frame update applies no time cutoff: its clock always advances
by `frame_skip · dt`. -/
theorem time_cutoff_at_t_max :
    AtwoodMachine.defaultParams.t_max = 10 ∧
    RigidBodyRotation.defaultParams.t_max = 10 ∧
    (∀ (p : AtwoodMachine.Params) (s : AtwoodMachine.State),
        p.t_max ≤ s.current_time → AtwoodMachine.animate_frame p false s = s) ∧
    (∀ (p : RigidBodyRotation.Params) (s : RigidBodyRotation.State),
        p.t_max ≤ s.current_time → RigidBodyRotation.update_physics p false s = s) ∧
    (∀ (p : ElasticCollision.Params) (s : ElasticCollision.State),
        (ElasticCollision.update_animation p false s).t
          = s.t + p.frame_skip * p.dt) := by
  have hstep : ∀ (p : ElasticCollision.Params) (s : ElasticCollision.State),
      (ElasticCollision.update_positions p s).t = s.t + p.dt := by
    intro p s
    unfold ElasticCollision.update_positions
    dsimp only
    split_ifs <;> rfl
  refine ⟨rfl, rfl, ?_, ?_, ?_⟩
  · intro p s h
    unfold AtwoodMachine.animate_frame
    exact if_neg fun hc => absurd h (not_le.mpr hc.2)
  · intro p s h
    unfold RigidBodyRotation.update_physics
    exact if_neg fun hc => absurd h (not_le.mpr hc.2)
  · intro p s
    show ((fun s => ElasticCollision.update_positions p s)^[p.frame_skip] s).t
        = s.t + p.frame_skip * p.dt
    induction p.frame_skip generalizing s with
    | zero => simp
    | succ n ih =>
      rw [Function.iterate_succ_apply, ih, hstep]
      push_cast
      ring
